import Mathlib

/-
Shallow embedding of the pod-management core of kuberdock-platform
(src/kubedock/kapi/pod.py and src/kubedock/kapi/podcollection.py).

Python dicts whose keys are fixed by the code are embedded as structures
with Option-typed fields (none = key absent); dicts with open string keys
(label maps, selectors) are embedded as association lists in iteration
order; in-place mutation is embedded as explicit state passing; raised
exceptions are embedded with Except.  Collaborators that are not part of
the two source files (billing, storage backend, persistence helpers) are
embedded as explicit parameters or as definitions marked
"Modelled from the spec:".
-/

set_option maxHeartbeats 1000000

namespace Kd

/-- Embeds Python str.startswith over the character data of the strings. -/
def startsWithStr (s pre : String) : Bool :=
  List.isPrefixOf pre.data s.data

/-- Embeds Python str.upper, character by character over the string data
(String.toUpper of the library is not used because its mapAux recursion
does not reduce in the kernel). -/
def pyUpper (s : String) : String := String.mk (s.data.map Char.toUpper)

/-- Embeds Python str.lower, character by character (same reason as
pyUpper). -/
def pyLower (s : String) : String := String.mk (s.data.map Char.toLower)

/-- Embeds settings.KUBERDOCK_INTERNAL_USER (the settings module is not part
of the two source files; the marker value itself is irrelevant, only equality
with it matters). -/
def KUBERDOCK_INTERNAL_USER : String := "kuberdock-internal"

/-- Embeds PodCollection._is_related (podcollection.py lines 310-319), key
for key as written: the None guards, then the loop over the keys of the
second dict whose body checks membership and value equality of the CURRENT
key and then immediately executes the return True that is indented inside
the loop, so only the first key (in iteration order, embedded as list
order) is ever checked.  When the second dict is empty the loop body never
runs and the Python function falls through returning None, which every
call site uses as a falsy value; that case is embedded as false. -/
def isRelated (one two : Option (List (String × String))) : Bool :=
  match one, two with
  | none, _ => false
  | _, none => false
  | some labels, some sel =>
    match sel with
    | [] => false
    | (k, v) :: _ =>
      match labels.lookup k with
      | none => false
      | some w => w == v

/-- The label-subset matching relation the specification describes: every
key/value pair of the selector is present with an equal value in the
labels.  This definition follows the words of the spec and is compared
with isRelated, which follows the source. -/
def selectorMatches (labels sel : List (String × String)) : Bool :=
  sel.all (fun kv => labels.lookup kv.1 == some kv.2)

/-- Embeds a container port dict.  none = key absent. -/
structure Port where
  containerPort : Nat
  hostPort : Option Nat := none
  protocol : Option String := none
  isPublic : Option Bool := none
  deriving DecidableEq, Repr

/-- Embeds an environment variable entry. -/
structure EnvVar where
  name : String
  value : String
  deriving DecidableEq, Repr

/-- Embeds the workingDir value, which the source tolerates as either a
string or a list of strings. -/
inductive WDir where
  | str (s : String)
  | strs (xs : List String)
  deriving DecidableEq, Repr

/-- Embeds a volumeMounts entry.  kdCopyFromImage is the one-shot
copy-from-image marker consumed by Pod._get_volumes_to_prefill; none
embeds an absent key (pop removes the key whatever its value). -/
structure VMount where
  name : String
  mountPath : String
  readOnly : Option Bool := none
  kdCopyFromImage : Option Bool := none
  deriving DecidableEq, Repr

/-- Embeds the kubes value of a container: an integer, or a value on which
int() raises ValueError. -/
inductive Kubes where
  | int (n : Int)
  | nonInt (s : String)
  deriving DecidableEq, Repr

/-- Modelled from the spec: the resource-limit fields produced by the
external billing collaborator billing.kubes_to_limits. -/
structure Limits where
  cpu : Nat := 0
  memory : Nat := 0
  deriving DecidableEq, Repr

/-- A kube-type value: an id from the persisted config, or the raw
nodeSelector string a live pod reports. -/
inductive KType where
  | id (n : Int)
  | sel (s : String)
  deriving DecidableEq, Repr

/-- Embeds a container descriptor dict.  The desired-state fields come
first, the runtime fields merged in by populate / forge_dockers follow.
For containerID, imageID and startedAt the source distinguishes a key that
is absent from a key that is present with value None, hence the doubled
Option.  The args field and its command-string re-parse in Pod.__init__
(shlex based) are not embedded; no claim concerns them. -/
structure Container where
  name : String := ""
  image : String := ""
  kubes : Option Kubes := none
  limits : Option Limits := none
  workingDir : Option WDir := none
  ports : List Port := []
  env : List EnvVar := []
  volumeMounts : List VMount := []
  sourceUrl : Option String := none
  imagePullPolicy : Option String := none
  ready : Option Bool := none
  state : Option String := none
  containerID : Option (Option String) := none
  imageID : Option (Option String) := none
  restartCount : Option Nat := none
  startedAt : Option (Option String) := none
  exitCode : Option (Option Int) := none
  finishedAt : Option (Option String) := none
  lastState : Option Unit := none
  deriving DecidableEq, Repr

/-- Embeds "type_{0}".format(kube_type). -/
def ktypeFormat (k : KType) : String :=
  match k with
  | KType.id n => "type_" ++ toString n
  | KType.sel s => "type_" ++ s

/-- Embeds Pod._prepare_container (pod.py lines 494-531).  kubesToLimits
and makeName embed the external collaborators billing.kubes_to_limits and
podutils.make_name_from_image.  owner is the username of the pod owner
(self.owner.username; the basestring fallback branch of the source reads
the same username from the attribute itself and is not distinguished by
this embedding). -/
def prepareContainer (kubesToLimits : Int → KType → Limits)
    (makeName : String → String) (owner : Option String) (kube_type : KType)
    (data : Container) : Container :=
  let data : Container := { data with sourceUrl := none }
  let data : Container := if data.name = "" then { data with name := makeName data.image } else data
  let data : Container :=
    match data.kubes with
    | some (Kubes.int n) =>
        { data with kubes := none, limits := some (kubesToLimits n kube_type) }
    | some (Kubes.nonInt _) => { data with kubes := none }
    | none => data
  let data : Container :=
    match data.workingDir with
    | some (WDir.strs xs) => { data with workingDir := some (WDir.str (String.intercalate "," xs)) }
    | _ => data
  let data : Container := { data with
    ports := data.ports.map (fun p =>
      { p with protocol := some (pyUpper (p.protocol.getD "TCP")), isPublic := none }) }
  let data : Container :=
    if owner ≠ some KUBERDOCK_INTERNAL_USER then
      { data with ports := data.ports.map (fun p => { p with hostPort := none }) }
    else data
  { data with imagePullPolicy := some "Always" }

/-- Embeds the source-specific payload of a volume dict (the key other
than name that identifies the volume kind).  noSource embeds a volume
dict carrying no source key (for example after the persistentDisk or a
falsy localStorage key was popped). -/
inductive VolSource where
  | noSource
  | persistentDisk (pdName : String) (pdSize : Option Nat)
  | localStorage (payload : Option (Option String))
  | hostPath (path : String)
  | emptyDir
  | rbd (image : String)
  deriving DecidableEq, Repr

/-- Embeds a volume dict: its name, the optional one-shot annotation marker
consumed by Pod.extract_volume_annotations (field ann), and its source. -/
structure Volume where
  name : String
  ann : Option String := none
  source : VolSource := VolSource.noSource
  deriving DecidableEq, Repr

/-- Modelled from the spec: the lower-cased pod phases of utils.POD_STATUSES
used by the two source files (the utils module is not part of them). -/
def POD_pending : String := "pending"

def POD_running : String := "running"

def POD_succeeded : String := "succeeded"

def POD_failed : String := "failed"

def POD_stopped : String := "stopped"

/-- Embeds the Pod object attribute bag as the two source files use it.
none embeds an attribute that is absent (or carries None where no claim
distinguishes the two).  owner holds the owner username: podcollection.py
stores and compares the username string in this attribute, while pod.py
wraps it in a PodOwner whose username member is read wherever the value is
used, so a single Option String field embeds both faithfully; ownerId
holds the numeric PodOwner id used for the kuberdock-user-uid label. -/
structure PodRec where
  id : Option String := none
  name : Option String := none
  ns : Option String := none
  sid : Option String := none
  labels : Option (List (String × String)) := none
  status : Option String := none
  k8s_status : Option String := none
  hostIP : Option String := none
  host : Option String := none
  node : Option String := none
  kube_type : Option KType := none
  volumes : List Volume := []
  containers : List Container := []
  restartPolicy : Option String := none
  dnsPolicy : Option String := none
  serviceAccount : Bool := false
  hostNetwork : Option Bool := none
  ready : Option Bool := none
  cluster : Bool := false
  owner : Option String := none
  ownerId : Option Int := none
  service : Option String := none
  replicas : Option Nat := none
  secrets : List String := []
  public_ip : Option String := none
  domain : Option String := none
  custom_domain : Option String := none
  portalIP : Option String := none
  serviceIP : Option String := none
  deriving DecidableEq, Repr

/-- Embeds _del_docker_prefix (pod.py lines 587-594): falsy values pass
through, otherwise everything up to and including the last docker://
occurrence is stripped via split. -/
def delDocker (v : Option String) : Option String :=
  match v with
  | none => none
  | some s => if s.isEmpty then some s else some ((s.splitOn "docker://").getLastD s)

/-- Embeds Pod.forge_dockers applied to one container dict: the update call
of pod.py lines 544-553. -/
def forgeContainer (status : String) (c : Container) : Container :=
  { c with
    containerID := some (some c.name)
    imageID := some (some c.image)
    lastState := some ()
    ready := some false
    restartCount := some 0
    state := some status
    startedAt := some none }

/-- Embeds Pod.forge_dockers (pod.py lines 543-553).  podcollection.py
calls this routine under its older name _forge_dockers; the routine itself
exists only as forge_dockers in the pod.py of the sources. -/
def forgeDockers (status : String) (p : PodRec) : PodRec :=
  { p with containers := p.containers.map (forgeContainer status) }

/-- Embeds the per-container detail dict of a kubernetes container state
(the single value of the one-key state dict). -/
structure RawStateDetails where
  startedAt : Option String := none
  exitCode : Option Int := none
  finishedAt : Option String := none
  deriving DecidableEq, Repr

/-- Embeds one entry of status.containerStatuses in a raw kubernetes pod
object.  stateKind is the single key of the state dict, stateDetails its
value.  For containerID and imageID the doubled Option separates an absent
key from a key present with value None. -/
structure RawCStatus where
  name : String
  ready : Option Bool := none
  restartCount : Option Nat := none
  stateKind : String := "running"
  stateDetails : RawStateDetails := {}
  containerID : Option (Option String) := none
  imageID : Option (Option String) := none
  lastState : Option Unit := none
  deriving DecidableEq, Repr

/-- Embeds the status section of a raw kubernetes pod object. -/
structure RawPodStatus where
  phase : Option String := none
  hostIP : Option String := none
  containerStatuses : List RawCStatus := []
  deriving DecidableEq, Repr

/-- Embeds the metadata section of a raw kubernetes pod object. -/
structure RawMeta where
  name : Option String := none
  ns : Option String := none
  labels : List (String × String) := []
  deriving DecidableEq, Repr

/-- Embeds the spec section of a raw kubernetes pod object. -/
structure RawSpec where
  nodeName : Option String := none
  nodeSelector : List (String × String) := []
  volumes : List Volume := []
  containers : List Container := []
  restartPolicy : Option String := none
  dnsPolicy : Option String := none
  serviceAccount : Bool := false
  hostNetwork : Option Bool := none
  deriving DecidableEq, Repr

/-- Embeds a raw kubernetes pod object as fetched from the orchestrator. -/
structure RawPod where
  metadata : RawMeta := {}
  status : RawPodStatus := {}
  spec : RawSpec := {}
  deriving DecidableEq, Repr

/-- Embeds the container.update(pod_item) merge of pod.py lines 160-184
for one matching container: pod_item is first transformed in place (state
popped into a plain string plus startedAt, exit data added when
terminated, ids defaulted from the container and stripped of the docker
scheme) and then every key of it overwrites the container dict. -/
def updFromStatus (c : Container) (st : RawCStatus) : Container :=
  { c with
    name := st.name
    ready := match st.ready with | some b => some b | none => c.ready
    restartCount := match st.restartCount with | some n => some n | none => c.restartCount
    state := some st.stateKind
    startedAt := some st.stateDetails.startedAt
    exitCode := if st.stateKind = "terminated" then some st.stateDetails.exitCode else c.exitCode
    finishedAt := if st.stateKind = "terminated" then some st.stateDetails.finishedAt else c.finishedAt
    containerID := some (delDocker (match st.containerID with | none => some c.name | some v => v))
    imageID := some (delDocker (match st.imageID with | none => some c.image | some v => v))
    lastState := match st.lastState with | some u => some u | none => c.lastState }

/-- Embeds the containerStatuses merge loop of Pod.populate: every status
entry except the POD pseudo-container is merged into each container with a
matching name.  The source mutates the status dict while merging, so a
second container with the same name would raise KeyError on the repeated
state pop; this embedding assumes container names are unique, which every
prepared spec guarantees. -/
def mergeStatuses (base : List Container) (sts : List RawCStatus) : List Container :=
  sts.foldl
    (fun cs item =>
      if item.name = "POD" then cs
      else cs.map (fun c => if c.name = item.name then updFromStatus c item else c))
    base

/-- Embeds Pod.populate (pod.py lines 126-195). -/
def populate (data : RawPod) : PodRec :=
  let labels := data.metadata.labels
  let st := pyLower (data.status.phase.getD POD_pending)
  let baseContainers := data.spec.containers
  let containers :=
    if st = POD_running ∨ st = POD_succeeded ∨ st = POD_failed then
      if data.status.containerStatuses.isEmpty then
        baseContainers.map (fun c =>
          { c with state := some st, containerID := some none, imageID := some none })
      else
        mergeStatuses baseContainers data.status.containerStatuses
    else
      baseContainers.map (forgeContainer st)
  { sid := data.metadata.name
    ns := data.metadata.ns
    labels := some labels
    id := labels.lookup "kuberdock-pod-uid"
    status := some st
    k8s_status := some st
    hostIP := data.status.hostIP
    host := data.spec.nodeName
    kube_type := (data.spec.nodeSelector.lookup "kuberdock-kube-type").map KType.sel
    node := data.spec.nodeSelector.lookup "kuberdock-node-hostname"
    volumes := data.spec.volumes
    containers := containers
    restartPolicy := data.spec.restartPolicy
    dnsPolicy := data.spec.dnsPolicy
    serviceAccount := data.spec.serviceAccount
    hostNetwork := data.spec.hostNetwork
    ready := some (containers.all (fun c => c.ready == some true))
    owner := none
    ownerId := none }

/-- Embeds pods.models.PersistentDiskStatuses (the models module is not
part of the two source files; the three states the provisioning code
distinguishes are PENDING, DELETED and every other state such as ACTIVE). -/
inductive DiskState where
  | PENDING
  | DELETED
  | ACTIVE
  deriving DecidableEq, Repr

/-- Embeds a pods.models.PersistentDisk row: name unique per owner, with a
size and a lifecycle state. -/
structure Disk where
  id : Nat
  name : String
  ownerId : Int
  size : Nat
  state : DiskState
  deriving DecidableEq, Repr

/-- Embeds the persistence layer pending transaction for persistent disks:
the visible rows plus the id the database would assign to the next added
row. -/
structure DiskDB where
  disks : List Disk := []
  nextId : Nat := 1
  deriving DecidableEq, Repr

/-- Embeds the details dict of the VolumeExists conflict error
(pod.py lines 62-68): the name and id of the clashing disk. -/
structure VolErr where
  name : String
  id : Nat
  deriving DecidableEq, Repr

/-- Embeds PersistentDisk.filter_by(owner_id=..., name=...).first(): the
first row matching owner and name. -/
def diskFind (disks : List Disk) (oid : Int) (nm : String) : Option Disk :=
  disks.find? (fun d => d.ownerId == oid && d.name == nm)

/-- Replaces the first row matching owner and name, embedding the in-place
mutation of the row object the query returned. -/
def updateFirstDisk (oid : Int) (nm : String) (f : Disk → Disk) :
    List Disk → List Disk
  | [] => []
  | d :: ds =>
    if d.ownerId == oid && d.name == nm then f d :: ds
    else d :: updateFirstDisk oid nm f ds

/-- Embeds Pod._handle_persistent_storage (pod.py lines 317-344).  enrich
embeds the external storage backend pstorage.STORAGE_CLASS().
enrich_volume_info.  vol is the orchestrator-facing volume (whose
persistentDisk key is popped first), volPub the public copy whose missing
pdSize is backfilled.  The raised VolumeExists is embedded as the error
case, after which no updated volume or transaction state exists.  A volume
without a persistentDisk source is never passed by the source (the caller
guards on the key) and is returned unchanged. -/
def handlePersistentStorage (enrich : Volume → Disk → Volume) (oid : Int)
    (vol volPub : Volume) (reuse : Bool) (st : DiskDB) :
    Except VolErr (Volume × Volume × DiskDB) :=
  match vol.source with
  | VolSource.persistentDisk nm sz =>
    let vol : Volume := { vol with source := VolSource.noSource }
    let found := diskFind st.disks oid nm
    let afterLookup : Except VolErr (Disk × DiskDB) :=
      match found with
      | none =>
        let d : Disk :=
          { id := st.nextId, name := nm, ownerId := oid, size := sz.getD 1,
            state := DiskState.PENDING }
        Except.ok (d, { disks := st.disks ++ [d], nextId := st.nextId + 1 })
      | some d0 =>
        if d0.state = DiskState.DELETED then
          let d : Disk := { d0 with size := sz.getD 1, state := DiskState.PENDING }
          Except.ok (d, { st with disks := updateFirstDisk oid nm (fun _ => d) st.disks })
        else if !reuse then
          Except.error { name := d0.name, id := d0.id }
        else
          let d : Disk := { d0 with state := DiskState.PENDING }
          Except.ok (d, { st with disks := updateFirstDisk oid nm (fun _ => d) st.disks })
    match afterLookup with
    | Except.error e => Except.error e
    | Except.ok (d, st') =>
      let volPub : Volume :=
        match volPub.source with
        | VolSource.persistentDisk n2 none =>
          { volPub with source := VolSource.persistentDisk n2 (some d.size) }
        | _ => volPub
      Except.ok (enrich vol d, volPub, st')
  | _ => Except.ok (vol, volPub, st)

/-- Embeds a persisted desired-state document as Pod.__init__ consumes it
(the JSON stored in the database config column).  ownerName and ownerId
embed an owner entry of the document when one is present. -/
structure PodConfig where
  id : Option String := none
  name : Option String := none
  ns : Option String := none
  containers : List Container := []
  volumes : List Volume := []
  kube_type : Option KType := none
  restartPolicy : Option String := none
  service : Option String := none
  status : Option String := none
  replicas : Option Nat := none
  ownerName : Option String := none
  ownerId : Option Int := none
  deriving DecidableEq, Repr

/-- Embeds Pod(json.loads(db_pod.config)): Pod.__init__ copies every key
of the document onto the object and installs the owner.  k8s_status is
always initialised to None. -/
def podFromConfig (c : PodConfig) : PodRec :=
  { id := c.id
    name := c.name
    ns := c.ns
    containers := c.containers
    volumes := c.volumes
    kube_type := c.kube_type
    restartPolicy := c.restartPolicy
    service := c.service
    status := c.status
    replicas := c.replicas
    owner := c.ownerName
    ownerId := c.ownerId
    k8s_status := none }

/-- Modelled from the spec: a persisted desired-state record as returned
by the persistence helper ModelQuery._fetch_pods, which is not part of the
two source files: the database row id, name, namespace, owner username and
the parsed desired-config document. -/
structure DbPod where
  id : String
  name : String
  ns : String
  ownerUsername : String
  config : PodConfig
  deriving DecidableEq, Repr

/-- A collection key: the (name, namespace) pair used to index
PodCollection._collection.  Both components are attribute values that may
be absent. -/
abbrev CKey := Option String × Option String

/-- The reconciled collection, embedded as an association list in
insertion order (the source uses a dict keyed by (name, namespace)). -/
abbrev Collection := List (CKey × PodRec)

/-- Dict read at a key. -/
def collGet (key : CKey) (c : Collection) : Option PodRec :=
  (c.find? (fun kv => kv.1 == key)).map (fun kv => kv.2)

/-- Dict write at a key: replaces the value when the key exists, appends
otherwise. -/
def collPut (key : CKey) (v : PodRec) (c : Collection) : Collection :=
  if c.any (fun kv => kv.1 == key) then
    c.map (fun kv => if kv.1 == key then (key, v) else kv)
  else c ++ [(key, v)]

/-- Modelled from the spec: for one Option-typed field, the persisted
container contributes its value only where the live side has none. -/
def fillField {α : Type} (live db : Option α) : Option α :=
  match live with
  | some v => some v
  | none => db

/-- Modelled from the spec: Utilities.merge_lists on container lists keyed
by name (the helpers module is not part of the two source files).  A
persisted container contributes any fields absent on the live side; the
runtime fields a live container observed are never overwritten. -/
def fillAbsent (live db : Container) : Container :=
  { live with
    image := if live.image = "" then db.image else live.image
    kubes := fillField live.kubes db.kubes
    limits := fillField live.limits db.limits
    workingDir := fillField live.workingDir db.workingDir
    ports := if live.ports.isEmpty then db.ports else live.ports
    env := if live.env.isEmpty then db.env else live.env
    volumeMounts := if live.volumeMounts.isEmpty then db.volumeMounts else live.volumeMounts
    sourceUrl := fillField live.sourceUrl db.sourceUrl
    imagePullPolicy := fillField live.imagePullPolicy db.imagePullPolicy
    ready := fillField live.ready db.ready
    state := fillField live.state db.state
    containerID := fillField live.containerID db.containerID
    imageID := fillField live.imageID db.imageID
    restartCount := fillField live.restartCount db.restartCount
    startedAt := fillField live.startedAt db.startedAt
    exitCode := fillField live.exitCode db.exitCode
    finishedAt := fillField live.finishedAt db.finishedAt
    lastState := fillField live.lastState db.lastState }

/-- Modelled from the spec: merge_lists applied to the live and persisted
container lists, matching on name. -/
def mergeContainerLists (live db : List Container) : List Container :=
  live.map (fun c =>
    match db.find? (fun d => d.name == c.name) with
    | some d => fillAbsent c d
    | none => c)

/-- Embeds the owner and status defaulting of PodCollection._merge
(podcollection.py lines 201-204) at one key.  The absence of the owner
attribute and a PodOwner whose username is None are both embedded as
owner = none (see PodRec).  When the key is missing the source would raise
KeyError; the embedding leaves the collection unchanged, and the merge
theorem assumes the persisted document name agrees with the record name so
that the key is always present. -/
def ownerStatusDefault (key : CKey) (d : DbPod) (coll : Collection) : Collection :=
  match collGet key coll with
  | none => coll
  | some p =>
    let p := if p.owner = none then { p with owner := some d.ownerUsername } else p
    let p := if p.status = none then { p with status := some POD_stopped } else p
    collPut key p coll

/-- Embeds one iteration of the loop in PodCollection._merge
(podcollection.py lines 185-204) for one persisted record. -/
def mergeStep (coll : Collection) (d : DbPod) : Collection :=
  let key : CKey := (some d.name, some d.ns)
  let coll :=
    match collGet key coll with
    | none =>
      let pod := forgeDockers POD_stopped (podFromConfig d.config)
      collPut (pod.name, some d.ns) pod coll
    | some live =>
      let live := { live with
        id := some d.id
        kube_type := d.config.kube_type
        containers := mergeContainerLists live.containers d.config.containers }
      collPut key live coll
  ownerStatusDefault key d coll

/-- Embeds PodCollection._merge: the loop over every persisted record. -/
def mergeAll (coll : Collection) (dbs : List DbPod) : Collection :=
  dbs.foldl mergeStep coll

/-- Embeds HOST_KDTOOLS_PATH (pod.py line 44). -/
def HOST_KDTOOLS_PATH : String := "/usr/lib/kdtools"

/-- Embeds MOUNT_KDTOOLS_PATH (pod.py line 43). -/
def MOUNT_KDTOOLS_PATH : String := "/.kdtools"

/-- Embeds SERVICE_ACCOUNT_STUB_PATH (pod.py line 45). -/
def SA_STUB_PATH : String := "/var/run/secrets/kubernetes.io/serviceaccount"

/-- Embeds uuid.uuid4().hex through a counter supply threaded by the
callers: the n-th generated hex string.  Freshness (successive values are
distinct and carry the generating prefix) is all the source relies on. -/
def uuidHex (g : Nat) : String := toString g

/-- Removes the first element satisfying the predicate.  This embeds the
filter-then-list.remove(first_match) idiom of add_kdtools: remove deletes
the first element equal to the first filtered match, and since the
predicate only reads the name, any earlier equal element would itself have
been the first match, so the element removed is exactly the first match. -/
def removeFirst {α : Type} (q : α → Bool) : List α → List α
  | [] => []
  | x :: xs => if q x then xs else x :: removeFirst q xs

/-- Embeds Pod.extract_volume_annotations (pod.py lines 367-372): every
annotation value is popped out of the volume dicts, in order. -/
def extractAnns (vols : List Volume) : List String × List Volume :=
  (vols.filterMap (fun v => v.ann), vols.map (fun v => { v with ann := none }))

/-- Embeds add_kdtools (pod.py lines 597-621): a freshly named read-only
kdtools hostPath volume replaces any previous kdtools- prefixed volume,
and the matching mount replaces any previous kdtools- prefixed mount in
every container. -/
def addKdtools (g : Nat) (containers : List Container) (volumes : List Volume) :
    List Container × List Volume × Nat :=
  let volumeName := "kdtools-" ++ uuidHex g
  let volumes :=
    if volumes.any (fun v => startsWithStr v.name "kdtools-") then
      removeFirst (fun v => startsWithStr v.name "kdtools-") volumes
    else volumes
  let volumes := volumes ++
    [{ name := volumeName, source := VolSource.hostPath HOST_KDTOOLS_PATH }]
  let containers := containers.map (fun c =>
    let vms :=
      if c.volumeMounts.any (fun m => startsWithStr m.name "kdtools-") then
        removeFirst (fun m => startsWithStr m.name "kdtools-") c.volumeMounts
      else c.volumeMounts
    { c with volumeMounts := vms ++
        [{ name := volumeName, mountPath := MOUNT_KDTOOLS_PATH, readOnly := some true }] })
  (containers, volumes, g + 1)

/-- Embeds add_kdenvs (pod.py lines 652-669): each pair is inserted at the
front of every container environment, so the last pair ends first. -/
def addKdenvs (containers : List Container) (envs : List (String × String)) :
    List Container :=
  containers.map (fun c =>
    { c with env := envs.foldl (fun e nv => { name := nv.1, value := nv.2 } :: e) c.env })

/-- Embeds add_serviceaccount_stub (pod.py lines 624-649): a freshly named
emptyDir volume is appended unconditionally, and its mount is appended to
every container. -/
def addSaStub (g : Nat) (containers : List Container) (volumes : List Volume) :
    List Container × List Volume × Nat :=
  let volumeName := "serviceaccount-stub-" ++ uuidHex g
  (containers.map (fun c =>
      { c with volumeMounts := c.volumeMounts ++
          [{ name := volumeName, mountPath := SA_STUB_PATH }] }),
   volumes ++ [{ name := volumeName, source := VolSource.emptyDir }],
   g + 1)

/-- Embeds Pod._get_volumes_to_prefill (pod.py lines 475-481) together
with its side effect: the first component collects the names of mounts
whose copy-from-image marker is truthy, the second is the container list
after the pop removed the marker key from every mount. -/
def prefillExtract (cs : List Container) : List String × List Container :=
  ((cs.map (fun c =>
      (c.volumeMounts.filter (fun m => m.kdCopyFromImage == some true)).map
        (fun m => m.name))).flatten,
   cs.map (fun c =>
     { c with volumeMounts := c.volumeMounts.map (fun m => { m with kdCopyFromImage := none }) }))

/-- Embeds Python str() on the optional numeric owner id: str(None) is the
string None. -/
def pyStr (o : Option Int) : String :=
  match o with
  | some n => toString n
  | none => "None"

/-- Dict write on a label map with optional values. -/
def dictSet (k : String) (v : Option String) (m : List (String × Option String)) :
    List (String × Option String) :=
  if m.any (fun kv => kv.1 == k) then
    m.map (fun kv => if kv.1 == k then (k, v) else kv)
  else m ++ [(k, v)]

/-- Dict write on a string-valued map (the nodeSelector). -/
def dictSetS (k v : String) (m : List (String × String)) : List (String × String) :=
  if m.any (fun kv => kv.1 == k) then
    m.map (fun kv => if kv.1 == k then (k, v) else kv)
  else m ++ [(k, v)]

/-- Embeds one optional scalar override of the config_values loop of
Pod.prepare: set only when the attribute is present and truthy. -/
def applyLabelOverride (k : String) (v : Option String)
    (m : List (String × Option String)) : List (String × Option String) :=
  match v with
  | some s => if s.isEmpty then m else dictSet k (some s) m
  | none => m

/-- Embeds the ReplicationController config dict Pod.prepare returns,
flattened: name/ns/podUid mirror metadata, selectorUid the spec selector,
tmplLabels and the ann fields the template metadata (annotations embedded
as the structured values whose json.dumps the source stores), the rest the
template spec.  kind, apiVersion and the empty securityContext are
constants of the source and are not repeated here. -/
structure Config where
  name : Option String := none
  ns : Option String := none
  podUid : Option String := none
  replicas : Nat := 1
  selectorUid : Option String := none
  tmplLabels : List (String × Option String) := []
  annPorts : List (List Port) := []
  annKubes : List (String × Kubes) := []
  annVolAnns : List String := []
  annPrefill : List String := []
  volumes : List Volume := []
  containers : List Container := []
  restartPolicy : String := "Always"
  dnsPolicy : String := "ClusterFirst"
  hostNetwork : Bool := false
  imagePullSecrets : List String := []
  nodeSelector : List (String × String) := []
  deriving DecidableEq, Repr

/-- Embeds Pod.prepare (pod.py lines 374-469).  ktl and mkName embed the
billing and podutils collaborators, defaultKT embeds
Kube.get_default_kube_type and attachable embeds
Kube.is_node_attachable_type (billing models outside the two source
files).  Returns the built config, the pod object as mutated by the call
(annotation pops, kdtools replacement and stub append on self.volumes,
marker pops on self.containers mounts) and the advanced name supply. -/
def prepare (ktl : Int → KType → Limits) (mkName : String → String)
    (defaultKT : KType) (attachable : KType → Bool)
    (p : PodRec) (g : Nat) : Config × PodRec × Nat :=
  let kube_type := p.kube_type.getD defaultKT
  let va := extractAnns p.volumes
  let volAnns := va.1
  let vols1 := va.2
  let service := p.service.getD ""
  let existing := vols1.map (fun v => v.name)
  let containers1 := p.containers.map (fun c =>
    prepareContainer ktl mkName p.owner kube_type
      { c with volumeMounts := c.volumeMounts.filter (fun m => existing.contains m.name) })
  let kd := addKdtools g containers1 vols1
  let containers3 := addKdenvs kd.1 [("KUBERDOCK_SERVICE", service)]
  let sa :=
    if !p.serviceAccount then addSaStub kd.2.2 containers3 kd.2.1
    else (containers3, kd.2.1, kd.2.2)
  let pf := prefillExtract p.containers
  let tl0 : List (String × Option String) :=
    [("kuberdock-pod-uid", p.id), ("kuberdock-user-uid", some (pyStr p.ownerId))]
  let tl1 := (p.labels.getD []).foldl (fun m kv => dictSet kv.1 (some kv.2) m) tl0
  let nodeSel : List (String × String) :=
    if attachable kube_type then [("kuberdock-kube-type", ktypeFormat kube_type)] else []
  let nodeSel :=
    match p.node with
    | some s => if s.isEmpty then nodeSel else dictSetS "kuberdock-node-hostname" s nodeSel
    | none => nodeSel
  let tl2 := applyLabelOverride "kuberdock-public-ip" p.public_ip tl1
  let tl3 := applyLabelOverride "kuberdock-domain" p.domain tl2
  let tl4 := applyLabelOverride "kuberdock-custom-domain" p.custom_domain tl3
  ({ name := p.sid
     ns := p.ns
     podUid := p.id
     replicas := p.replicas.getD 1
     selectorUid := p.id
     tmplLabels := tl4
     annPorts := p.containers.map (fun c => c.ports)
     annKubes := p.containers.map (fun c => (c.name, c.kubes.getD (Kubes.int 1)))
     annVolAnns := volAnns
     annPrefill := pf.1
     volumes := sa.2.1
     containers := sa.1
     restartPolicy := p.restartPolicy.getD "Always"
     dnsPolicy := p.dnsPolicy.getD "ClusterFirst"
     hostNetwork := p.hostNetwork.getD false
     imagePullSecrets := p.secrets
     nodeSelector := nodeSel },
   { p with volumes := sa.2.1, containers := pf.2 },
   sa.2.2)

/-- Canonicalises a generated sidecar volume name, keeping every other
name: this is the formal reading of "structurally equal except for the
freshly generated identifiers of the kdtools and service-account-stub
volumes". -/
def scrubName (s : String) : String :=
  if startsWithStr s "kdtools-" then "kdtools-*"
  else if startsWithStr s "serviceaccount-stub-" then "serviceaccount-stub-*"
  else s

/-- scrubName over a volume. -/
def scrubVolume (v : Volume) : Volume := { v with name := scrubName v.name }

/-- scrubName over a mount. -/
def scrubMount (m : VMount) : VMount := { m with name := scrubName m.name }

/-- scrubName over the mounts of a container. -/
def scrubContainer (c : Container) : Container :=
  { c with volumeMounts := c.volumeMounts.map scrubMount }

/-- A config up to the freshly generated sidecar volume identifiers. -/
def scrubConfig (c : Config) : Config :=
  { c with volumes := c.volumes.map scrubVolume, containers := c.containers.map scrubContainer }

/-- Embeds one entry of the ports list PodCollection._run_service builds. -/
structure SvcPort where
  name : String
  port : Nat
  protocol : Option String := none
  targetPort : Nat
  deriving DecidableEq, Repr

/-- Embeds a live kubernetes Service object as the source reads it: the
generated name, its namespace, the parsed public-ip-state annotation
(assignedTo, assignedPodIp, assignedPublicIp, embedding the json blob
structurally), the ports, the selector and label names and the requested
portalIP. -/
structure SvcObj where
  name : String
  ns : String
  assignedTo : Option String := none
  assignedPodIp : Option String := none
  assignedPublicIp : Option String := none
  ports : List SvcPort := []
  selectorName : Option String := none
  labelsName : Option String := none
  portalIP : Option String := none
  deriving DecidableEq, Repr

/-- Embeds a live pod object of a namespace as _stop_cluster reads it:
namespace, name and labels. -/
structure PodObj where
  ns : String
  pname : String
  plabels : List (String × String) := []
  deriving DecidableEq, Repr

/-- Embeds the orchestrator state the claims touch: existing namespaces,
live services, the (namespace, name) pairs of live workload controller
objects, the configs posted for them, live pod instances and the counter
feeding generateName for services. -/
structure K8s where
  namespaces : List String := []
  services : List SvcObj := []
  rcObjs : List (String × String) := []
  rcConfigs : List Config := []
  pods : List PodObj := []
  svcCounter : Nat := 0
  deriving DecidableEq, Repr

/-- The observable actions a lifecycle operation performs, in order. -/
inductive Ev where
  | nsCreate (name : String)
  | nsDelete (name : String)
  | svcCreate (name : String)
  | svcDelete (name : String)
  | cfgUpdateService (name : String)
  | rcCreate (name : Option String)
  | rcDelete (sid : String)
  | podDelete (name : String)
  | ipUnbind (node : String)
  | freeIp
  | markDeleted (podId : Option String)
  deriving DecidableEq, Repr

/-- Embeds the state a lifecycle operation threads: the orchestrator, the
service field of the persisted desired config (read by get_config and
written by _update_pod_config, persistence helpers that are not part of
the two source files and are modelled from the spec as a stored service
name), the uuid supply and the ids of records marked deleted. -/
structure World where
  k8s : K8s := {}
  configService : Option String := none
  gen : Nat := 0
  deletedPods : List String := []
  deriving DecidableEq, Repr

/-- Embeds PodCollection._make_namespace (podcollection.py lines 93-101):
look the namespace up, create it only on 404. -/
def makeNamespace (ns : String) (k : K8s) : K8s × List Ev :=
  if k.namespaces.contains ns then (k, [])
  else ({ k with namespaces := k.namespaces ++ [ns] }, [Ev.nsCreate ns])

/-- Embeds the ports loop of PodCollection._run_service (podcollection.py
lines 207-218) for one port at container index ci and port index pi: name
c0-p0 style with a -public suffix when the port is public, public port
from hostPort when truthy else containerPort, target always the
containerPort. -/
def svcPortOf (ci pi : Nat) (p : Port) : SvcPort :=
  { name := "c" ++ toString ci ++ "-p" ++ toString pi ++
      (if p.isPublic == some true then "-public" else "")
    port :=
      match p.hostPort with
      | some h => if h = 0 then p.containerPort else h
      | none => p.containerPort
    protocol := p.protocol
    targetPort := p.containerPort }

/-- The ports loop over all containers, flattened in order. -/
def svcPortsOf (cs : List Container) : List SvcPort :=
  (cs.enum.map (fun ci => ci.2.ports.enum.map (fun pi => svcPortOf ci.1 pi.1 pi.2))).flatten

/-- Embeds PodCollection._run_service (podcollection.py lines 206-240).
mkDash embeds Pod._make_dash, a name normalisation that exists only in a
newer Pod class than the pod.py of the sources; only the fact that it is
a function of the pod name matters.  The service name is produced by the
orchestrator from generateName service-, embedded through the counter. -/
def runService (mkDash : String → String) (pod : PodRec) (k : K8s) : K8s × SvcObj :=
  let svc : SvcObj :=
    { name := "service-" ++ toString k.svcCounter
      ns := pod.ns.getD ""
      assignedPublicIp := pod.public_ip
      ports := svcPortsOf pod.containers
      selectorName := pod.name
      labelsName := some (mkDash (pod.name.getD "") ++ "-service")
      portalIP :=
        match pod.portalIP with
        | some s => if s.isEmpty then none else some s
        | none => none }
  ({ k with services := k.services ++ [svc], svcCounter := k.svcCounter + 1 }, svc)

/-- Embeds PodCollection._start_pod (podcollection.py lines 254-268): make
the namespace; when the persisted config holds no service name and some
container exposes a port, create one service and persist its generated
name; then build the spec with prepare and post the workload.  The
orchestrator responses are embedded as successes (claims about failure
paths would condition on them).  Returns the new world, the mutated pod
object, the ordered events and the reported status. -/
def startPod (ktl : Int → KType → Limits) (mkName : String → String)
    (defaultKT : KType) (attachable : KType → Bool) (mkDash : String → String)
    (pod : PodRec) (w : World) : World × PodRec × List Ev × String :=
  let mkns := makeNamespace (pod.ns.getD "") w.k8s
  let k1 := mkns.1
  let svcStep : K8s × Option String × List Ev :=
    if (w.configService.getD "").isEmpty then
      match pod.containers.find? (fun c => !c.ports.isEmpty) with
      | some _ =>
        let rs := runService mkDash pod k1
        (rs.1, some rs.2.name, [Ev.svcCreate rs.2.name, Ev.cfgUpdateService rs.2.name])
      | none => (k1, w.configService, [])
    else (k1, w.configService, [])
  let pr := prepare ktl mkName defaultKT attachable pod w.gen
  let cfg := pr.1
  let k3 : K8s :=
    { svcStep.1 with
      rcConfigs := svcStep.1.rcConfigs ++ [cfg]
      rcObjs := svcStep.1.rcObjs ++ [(pod.ns.getD "", cfg.name.getD "")] }
  ({ w with k8s := k3, configService := svcStep.2.1, gen := pr.2.2 },
   pr.2.1,
   mkns.2 ++ svcStep.2.2 ++ [Ev.rcCreate cfg.name],
   "pending")

/-- Embeds a workload controller delete against the orchestrator: succeeds
exactly when the object exists, removing it. -/
def delRC (ns sid : String) (k : K8s) : K8s × Bool :=
  if k.rcObjs.contains (ns, sid) then
    ({ k with rcObjs := k.rcObjs.erase (ns, sid) }, true)
  else (k, false)

/-- Embeds PodCollection._stop_cluster (podcollection.py lines 280-283):
delete every live pod of the namespace whose labels are related (via the
_is_related predicate embedded above) to the one-key selector made of the
pod name. -/
def stopCluster (pod : PodRec) (k : K8s) : K8s × List Ev :=
  let ns := pod.ns.getD ""
  let sel : List (String × String) := [("name", pod.name.getD "")]
  let victims := k.pods.filter (fun q => q.ns == ns && isRelated (some q.plabels) (some sel))
  ({ k with pods := k.pods.filter (fun q => !(q.ns == ns && isRelated (some q.plabels) (some sel))) },
   victims.map (fun q => Ev.podDelete q.pname))

/-- Embeds the workload kind attribute podcollection.py reads as pod.kind;
the attribute is absent from the pod.py of the sources, and per the spec
the workload is the replication controller collection. -/
def POD_KIND : String := "replicationcontrollers"

/-- Embeds PodCollection._stop_pod (podcollection.py lines 270-278): set
the in-memory status to stopped; only when the object has a sid, delete
the workload (and the cluster instances when cluster-backed) and return
the status dict, embedded as some "stopped"; otherwise fall through
returning None, embedded as none, with no orchestrator call and no
persisted-state access at all. -/
def stopPod (pod : PodRec) (w : World) : Except String (PodRec × World × Option String × List Ev) :=
  let pod := { pod with status := some POD_stopped }
  match pod.sid with
  | some sid =>
    let dr := delRC (pod.ns.getD "") sid w.k8s
    let sc := if pod.cluster then stopCluster pod dr.1 else (dr.1, [])
    if !dr.2 then Except.error "Could not stop a pod"
    else Except.ok (pod, { w with k8s := sc.1 }, some POD_stopped,
      Ev.rcDelete sid :: sc.2)
  | none => Except.ok (pod, w, none, [])

/-- Embeds PodCollection.delete (podcollection.py lines 64-91) after the
lookup.  unbind embeds the external utils.modify_node_ips collaborator;
the _free_ip and _mark_pod_as_deleted persistence helpers are not part of
the two source files and are modelled from the spec as the freeIp and
markDeleted effects.  Every raised error aborts with no world produced:
nothing earlier is rolled back, nothing later is attempted. -/
def deletePod (unbind : String → Bool) (pod : PodRec) (force : Bool) (w : World) :
    Except String (World × List Ev) :=
  if pod.owner == some KUBERDOCK_INTERNAL_USER && !force then
    Except.error "Service pod cannot be removed"
  else
    let ns := pod.ns.getD ""
    let step1 : Except String (K8s × List Ev) :=
      match pod.sid with
      | some sid =>
        let dr := delRC ns sid w.k8s
        if !dr.2 then Except.error "Could not remove a pod"
        else if pod.cluster then
          let sc := stopCluster pod dr.1
          Except.ok (sc.1, Ev.rcDelete sid :: sc.2)
        else Except.ok (dr.1, [Ev.rcDelete sid])
      | none => Except.ok (w.k8s, [])
    match step1 with
    | Except.error e => Except.error e
    | Except.ok (k1, ev1) =>
      let step2 : Except String (K8s × List Ev) :=
        match w.configService with
        | some sname =>
          if sname.isEmpty then Except.ok (k1, [])
          else
            match k1.services.find? (fun s => s.name == sname && s.ns == ns) with
            | some svc =>
              let unb : Except String (List Ev) :=
                match svc.assignedTo with
                | some nodeName =>
                  if unbind nodeName then Except.ok [Ev.ipUnbind nodeName]
                  else Except.error "Cannot unbind ip from node: connection error"
                | none => Except.ok []
              match unb with
              | Except.error e => Except.error e
              | Except.ok evU =>
                Except.ok
                  ({ k1 with services :=
                      k1.services.eraseP (fun s => s.name == sname && s.ns == ns) },
                   evU ++ [Ev.svcDelete sname])
            | none => Except.error "Could not remove a service"
        | none => Except.ok (k1, [])
      match step2 with
      | Except.error e => Except.error e
      | Except.ok (k2, ev2) =>
        let ev3 : List Ev := if pod.public_ip ≠ none then [Ev.freeIp] else []
        if k2.namespaces.contains ns then
          let k4 : K8s := { k2 with namespaces := k2.namespaces.erase ns }
          let w' : World :=
            { w with k8s := k4, deletedPods := w.deletedPods ++ [pod.id.getD ""] }
          Except.ok (w', ev1 ++ ev2 ++ ev3 ++ [Ev.nsDelete ns, Ev.markDeleted pod.id])
        else Except.error "Cannot delete namespace"

/-- Embeds one raw replicationControllers item as _get_replicas reads it;
every field the source indexes may be missing, which the source turns into
a skip via the KeyError handler. -/
structure RCRaw where
  uid : Option String := none
  rid : Option String := none
  currentReplicas : Option Nat := none
  replicaSelector : Option String := none
  labelsName : Option String := none
  deriving DecidableEq, Repr

/-- Embeds the replica_item dict PodCollection._get_replicas builds. -/
structure ReplicaItem where
  id : String
  sid : String
  replicas : Nat
  replicaSelector : String
  name : String
  deriving DecidableEq, Repr

/-- Embeds PodCollection._get_replicas (podcollection.py lines 126-145):
items missing any indexed key are skipped, and with a name given items
whose replicaSelector differs from it are skipped. -/
def getReplicas (items : List RCRaw) (name : Option String) : List ReplicaItem :=
  items.filterMap (fun it =>
    match it.uid, it.rid, it.currentReplicas, it.replicaSelector, it.labelsName with
    | some u, some i, some r, some sel, some nm =>
      if (match name with | some n => sel != n | none => false) then none
      else some { id := u, sid := i, replicas := r, replicaSelector := sel, name := nm }
    | _, _, _, _, _ => none)

/-- Embeds the Python values handed to json functions at the resize call
site. -/
inductive PyVal where
  | str (s : String)
  | num (n : Nat)
  | dict (entries : List (String × PyVal))

/-- Embeds json.loads as the resize path exercises it: in Python 2 it
raises TypeError: expected string or buffer unless its argument is a
string.  The call modelled here always passes a dict, so the successful
parse branch is never taken; for totality a string argument is embedded as
its parsed-equivalent marker. -/
def jsonLoads (v : PyVal) : Except String PyVal :=
  match v with
  | PyVal.str s => Except.ok (PyVal.str s)
  | _ => Except.error "TypeError: expected string or buffer"

/-- Embeds PodCollection._resize_replicas (podcollection.py lines 242-252):
the requested count, the controllers selected by _get_replicas on the pod
name, then for each a PUT whose body the source builds as
json.loads applied to a dict — embedded faithfully, so a non-empty selection raises
TypeError before any PUT; an empty selection returns 0.  On the
unreachable success path the issued updates and the count are returned. -/
def resizeReplicas (items : List RCRaw) (pod : PodRec) (dataReplicas : Option Nat) :
    Except String (List (String × Nat) × Nat) :=
  let number := dataReplicas.getD (pod.replicas.getD 0)
  let replicas := getReplicas items pod.name
  match replicas with
  | [] => Except.ok ([], 0)
  | _ =>
    match jsonLoads (PyVal.dict [("desiredState", PyVal.dict [("replicas", PyVal.num number)])]) with
    | Except.error e => Except.error e
    | Except.ok _ => Except.ok (replicas.map (fun r => (r.id, number)), replicas.length)

/-- The kdtools volume add_kdtools appends for supply position g. -/
def kdVol (g : Nat) : Volume :=
  { name := "kdtools-" ++ uuidHex g, source := VolSource.hostPath HOST_KDTOOLS_PATH }

/-- The kdtools mount add_kdtools appends for supply position g. -/
def kdMount (g : Nat) : VMount :=
  { name := "kdtools-" ++ uuidHex g, mountPath := MOUNT_KDTOOLS_PATH, readOnly := some true }

/-- Closed form of the config Pod.prepare builds for a pod that requests a
real service account, whose volumes vs carry no annotation markers and no
kdtools-prefixed names and whose mounts carry no copy-from-image markers
and no kdtools-prefixed names (the idempotence analysis below proves
prepare equal to this form). -/
def cfgClean (ktl : Int → KType → Limits) (mkName : String → String)
    (defaultKT : KType) (attachable : KType → Bool)
    (p : PodRec) (vs : List Volume) (g : Nat) : Config :=
  let kube_type := p.kube_type.getD defaultKT
  let existing := vs.map (fun v => v.name)
  let containers := p.containers.map (fun c =>
    let c1 := prepareContainer ktl mkName p.owner kube_type
      { c with volumeMounts := c.volumeMounts.filter (fun m => existing.contains m.name) }
    { c1 with
      volumeMounts := c1.volumeMounts ++ [kdMount g]
      env := { name := "KUBERDOCK_SERVICE", value := p.service.getD "" } :: c1.env })
  let tl0 : List (String × Option String) :=
    [("kuberdock-pod-uid", p.id), ("kuberdock-user-uid", some (pyStr p.ownerId))]
  let tl1 := (p.labels.getD []).foldl (fun m kv => dictSet kv.1 (some kv.2) m) tl0
  let nodeSel : List (String × String) :=
    if attachable kube_type then [("kuberdock-kube-type", ktypeFormat kube_type)] else []
  let nodeSel :=
    match p.node with
    | some s => if s.isEmpty then nodeSel else dictSetS "kuberdock-node-hostname" s nodeSel
    | none => nodeSel
  let tl2 := applyLabelOverride "kuberdock-public-ip" p.public_ip tl1
  let tl3 := applyLabelOverride "kuberdock-domain" p.domain tl2
  let tl4 := applyLabelOverride "kuberdock-custom-domain" p.custom_domain tl3
  { name := p.sid
    ns := p.ns
    podUid := p.id
    replicas := p.replicas.getD 1
    selectorUid := p.id
    tmplLabels := tl4
    annPorts := p.containers.map (fun c => c.ports)
    annKubes := p.containers.map (fun c => (c.name, c.kubes.getD (Kubes.int 1)))
    annVolAnns := []
    annPrefill := []
    volumes := vs ++ [kdVol g]
    containers := containers
    restartPolicy := p.restartPolicy.getD "Always"
    dnsPolicy := p.dnsPolicy.getD "ClusterFirst"
    hostNetwork := p.hostNetwork.getD false
    imagePullSecrets := p.secrets
    nodeSelector := nodeSel }

/-- A concrete billing collaborator used by the concrete instances. -/
def ktl0 : Int → KType → Limits := fun n _ => { cpu := n.toNat, memory := 2 * n.toNat }

/-- A concrete name-from-image collaborator used by the concrete instances. -/
def mkName0 : String → String := fun s => s

/-- A concrete default kube type used by the concrete instances. -/
def kt0 : KType := KType.id 0

/-- A concrete node-attachability predicate used by the concrete instances. -/
def att0 : KType → Bool := fun _ => true

/-- A concrete dash-name collaborator used by the concrete instances. -/
def mkDash0 : String → String := fun s => s

/-- A concrete storage backend used by the concrete instances. -/
def enrich0 : Volume → Disk → Volume := fun v d => { v with source := VolSource.rbd d.name }

/-- A concrete ip-unbind collaborator used by the concrete instances. -/
def unbind0 : String → Bool := fun _ => true

/-- A concrete pod for the idempotence analysis: one container, no real
service account requested (the source default). -/
def p2 : PodRec :=
  { sid := some "rc1", ns := some "ns1", id := some "uid1", owner := some "alice",
    ownerId := some 7, containers := [{ name := "c1", image := "nginx" }] }

/-- A concrete live replication controller whose selector is the pod name
web. -/
def rcW : RCRaw :=
  { uid := some "u1", rid := some "r1", currentReplicas := some 1,
    replicaSelector := some "web", labelsName := some "web" }

/-- A concrete pod named web for the resize analysis. -/
def podW : PodRec := { name := some "web" }

/-- A concrete raw orchestrator pod in Running phase carrying no
containerStatuses. -/
def rawW : RawPod :=
  { metadata := { name := some "rc1", ns := some "ns1",
                  labels := [("kuberdock-pod-uid", "uid1")] }
    status := { phase := some "Running" }
    spec := { containers := [{ name := "c1", image := "nginx" }] } }

/-- Mapping a function that fixes every member fixes the list. -/
theorem mapSelf {α : Type} {f : α → α} {l : List α} (h : ∀ x ∈ l, f x = x) :
    l.map f = l := by
  induction l with
  | nil => rfl
  | cons a t ih =>
    simp only [List.map_cons, h a (by simp)]
    rw [ih (fun x hx => h x (by simp [hx]))]

/-- C1: the claim says a pod is correlated with a resource exactly when
every key/value pair of the selector is present and equal in the pod
labels.  The source predicate _is_related returns True after checking only
the first selector key, because its return True line sits inside the loop:
on labels name=a, role=db and the two-key selector name=a, role=web it
answers true although the selector does not subset-match the labels (an
empty selector conversely yields a falsy None).  Whichever key the Python
dict happens to iterate first, a two-key selector ordered that way
exhibits the divergence; list order embeds the iteration order. -/
theorem c1_isRelated_checks_only_first_key :
    isRelated (some [("name", "a"), ("role", "db")])
        (some [("name", "a"), ("role", "web")]) = true
    ∧ selectorMatches [("name", "a"), ("role", "db")]
        [("name", "a"), ("role", "web")] = false :=
  ⟨rfl, rfl⟩

/-- C8: the claim says resize issues a replica-count update to every live
controller whose selector equals the pod name and returns how many were
affected.  The lookup part holds (one controller matches here), but the
loop body builds the PUT payload with json.loads applied to a dict, which
raises TypeError in Python 2 before any update is issued; the source even
carries a FIXME: not working for now comment, so the intended behaviour is
the claim and the code is the slip. -/
theorem c8_resize_raises_type_error :
    (getReplicas [rcW] (some "web")).length = 1
    ∧ resizeReplicas [rcW] podW (some 3) =
        Except.error "TypeError: expected string or buffer" :=
  ⟨rfl, rfl⟩

/-- C10: for a pod record with no sid attribute, _stop_pod makes no
orchestrator call, touches no persisted state, only sets the in-memory
status attribute to stopped, and returns None instead of the status dict
(the world is returned unchanged and the event list is empty). -/
theorem c10_stop_without_sid_only_marks_status (pod : PodRec) (w : World)
    (h : pod.sid = none) :
    stopPod pod w = Except.ok ({ pod with status := some POD_stopped }, w, none, []) := by
  simp [stopPod, h]

/-- Concrete instance of the C10 theorem. -/
theorem c10_stop_without_sid_only_marks_status_witness :
    stopPod { name := some "p" } {} =
      Except.ok ({ name := some "p", status := some POD_stopped }, {}, none, []) :=
  c10_stop_without_sid_only_marks_status { name := some "p" } {} rfl

/-- C6: after the per-container transform, every port carries the
upper-cased protocol defaulted to TCP and no isPublic key, the hostPort
key survives only for the platform-internal owner, and imagePullPolicy is
forced to Always: the resulting port list is exactly the declared ports
mapped through that normalisation. -/
theorem c6_prepare_container_normalises_ports (ktl : Int → KType → Limits)
    (mkName : String → String) (owner : Option String) (kt : KType) (data : Container) :
    (prepareContainer ktl mkName owner kt data).imagePullPolicy = some "Always"
    ∧ (prepareContainer ktl mkName owner kt data).ports =
        data.ports.map (fun p =>
          { p with protocol := some (pyUpper (p.protocol.getD "TCP")),
                   isPublic := none,
                   hostPort := if owner = some KUBERDOCK_INTERNAL_USER then p.hostPort else none })
    ∧ ∀ q ∈ (prepareContainer ktl mkName owner kt data).ports,
        q.isPublic = none ∧ (owner ≠ some KUBERDOCK_INTERNAL_USER → q.hostPort = none) := by
  have hports : (prepareContainer ktl mkName owner kt data).ports =
      data.ports.map (fun p =>
        { p with protocol := some (pyUpper (p.protocol.getD "TCP")),
                 isPublic := none,
                 hostPort := if owner = some KUBERDOCK_INTERNAL_USER then p.hostPort else none }) := by
    simp only [prepareContainer]
    split <;> split <;> split <;> split <;>
      (simp only [List.map_map]
       refine List.map_congr_left fun p _ => ?_
       simp_all)
  refine ⟨rfl, hports, fun q hq => ?_⟩
  rw [hports] at hq
  obtain ⟨p, _, rfl⟩ := List.mem_map.1 hq
  exact ⟨rfl, fun hne => by simp [if_neg hne]⟩

/-- Concrete instance of the C6 theorem: a public udp port with a host
port requested, for a regular owner. -/
theorem c6_prepare_container_normalises_ports_witness :
    (prepareContainer ktl0 mkName0 (some "alice") kt0
        { ports := [{ containerPort := 80, hostPort := some 8080,
                      protocol := some "udp", isPublic := some true }] }).ports =
      [{ containerPort := 80, hostPort := none, protocol := some "UDP", isPublic := none }]
    ∧ ∀ q ∈ (prepareContainer ktl0 mkName0 (some "alice") kt0
        { ports := [{ containerPort := 80, hostPort := some 8080,
                      protocol := some "udp", isPublic := some true }] }).ports,
        q.isPublic = none ∧ q.hostPort = none := by
  have h := c6_prepare_container_normalises_ports ktl0 mkName0 (some "alice") kt0
    { ports := [{ containerPort := 80, hostPort := some 8080,
                  protocol := some "udp", isPublic := some true }] }
  refine ⟨by rw [h.2.1]; decide, fun q hq => ?_⟩
  exact ⟨(h.2.2 q hq).1, (h.2.2 q hq).2 (by decide)⟩

/-- C5: for a raw pod whose phase is running, succeeded or failed and
whose status carries no per-container status entries, populate gives
every container the lower-cased pod phase as its state and null
containerID and imageID; the ready flag is false as soon as one container
exists (the raw spec containers report no ready value), and in general
ready is exactly the conjunction of the per-container ready reports. -/
theorem c5_populate_defaults_without_statuses (data : RawPod) (ph : String)
    (hph : data.status.phase = some ph)
    (hterm : pyLower ph = POD_running ∨ pyLower ph = POD_succeeded ∨ pyLower ph = POD_failed)
    (hempty : data.status.containerStatuses = [])
    (hready : ∀ c ∈ data.spec.containers, c.ready = none)
    (hne : data.spec.containers ≠ []) :
    (∀ c ∈ (populate data).containers,
        c.state = some (pyLower ph) ∧ c.containerID = some none ∧ c.imageID = some none)
    ∧ (populate data).ready = some false
    ∧ (populate data).ready =
        some ((populate data).containers.all (fun c => c.ready == some true)) := by
  have hcontainers : (populate data).containers =
      data.spec.containers.map (fun c =>
        { c with state := some (pyLower ph), containerID := some none, imageID := some none }) := by
    simp only [populate, hph, Option.getD_some, hempty]
    simp [hterm]
  refine ⟨?_, ?_, rfl⟩
  · intro c hc
    rw [hcontainers] at hc
    obtain ⟨c0, _, rfl⟩ := List.mem_map.1 hc
    exact ⟨rfl, rfl, rfl⟩
  · have hcsame : (populate data).ready =
        some ((populate data).containers.all (fun c => c.ready == some true)) := rfl
    rw [hcsame, hcontainers]
    obtain ⟨c0, hc0⟩ := List.exists_mem_of_ne_nil data.spec.containers hne
    have : (data.spec.containers.map (fun c =>
        { c with state := some (pyLower ph), containerID := some none,
                 imageID := some none })).all (fun c => c.ready == some true) = false := by
      refine List.all_eq_false.2 ⟨_, List.mem_map_of_mem _ hc0, ?_⟩
      simp [hready c0 hc0]
    rw [this]

/-- Concrete instance of the C5 theorem on the rawW pod. -/
theorem c5_populate_defaults_without_statuses_witness :
    (∀ c ∈ (populate rawW).containers,
        c.state = some (pyLower "Running") ∧ c.containerID = some none ∧ c.imageID = some none)
    ∧ (populate rawW).ready = some false
    ∧ (populate rawW).ready =
        some ((populate rawW).containers.all (fun c => c.ready == some true)) :=
  c5_populate_defaults_without_statuses rawW "Running" rfl (Or.inl (by decide)) rfl
    (by decide) (by decide)

/-- Replacing the first row matching owner and name with a row that still
matches makes the lookup return the replacement. -/
theorem diskFind_updateFirstDisk (disks : List Disk) (oid : Int) (nm : String) (d' : Disk)
    (h : (diskFind disks oid nm).isSome = true)
    (hown : d'.ownerId = oid) (hnm : d'.name = nm) :
    diskFind (updateFirstDisk oid nm (fun _ => d') disks) oid nm = some d' := by
  induction disks with
  | nil => simp [diskFind] at h
  | cons d ds ih =>
    by_cases hd : (d.ownerId == oid && d.name == nm) = true
    · simp only [updateFirstDisk, hd, if_true]
      simp [diskFind, hown, hnm]
    · have hd' : (d.ownerId == oid && d.name == nm) = false := by
        simpa using hd
      simp only [updateFirstDisk, hd', Bool.false_eq_true, if_false]
      have h2 : (diskFind ds oid nm).isSome = true := by
        simpa [diskFind, List.find?_cons, hd'] using h
      simpa [diskFind, List.find?_cons, hd'] using ih h2

/-- C3: for a persistent-disk volume declaration whose (owner, name)
matches an existing disk row: a DELETED row is resurrected with the newly
requested size (default 1) in PENDING state, while a non-DELETED row with
reuse not requested makes provisioning fail with the VolumeExists conflict
carrying that row's name and id, producing no updated volume, public copy
or transaction state. -/
theorem c3_persistent_disk_conflict_and_resurrect (enrich : Volume → Disk → Volume)
    (oid : Int) (vol volPub : Volume) (reuse : Bool) (st : DiskDB)
    (nm : String) (sz : Option Nat) (d : Disk)
    (hsrc : vol.source = VolSource.persistentDisk nm sz)
    (hfind : diskFind st.disks oid nm = some d) :
    (d.state = DiskState.DELETED →
      ∃ v' p' st', handlePersistentStorage enrich oid vol volPub reuse st =
          Except.ok (v', p', st')
        ∧ diskFind st'.disks oid nm =
            some { d with size := sz.getD 1, state := DiskState.PENDING })
    ∧ (d.state ≠ DiskState.DELETED → reuse = false →
      handlePersistentStorage enrich oid vol volPub reuse st =
        Except.error { name := d.name, id := d.id }) := by
  have hmatch :=
    List.find?_some
      (show List.find? (fun x : Disk => x.ownerId == oid && x.name == nm) st.disks = some d
        from hfind)
  obtain ⟨h1, h2⟩ : d.ownerId = oid ∧ d.name = nm := by simpa using hmatch
  constructor
  · intro hdel
    have hcomp : handlePersistentStorage enrich oid vol volPub reuse st =
        Except.ok
          (enrich { vol with source := VolSource.noSource }
            { d with size := sz.getD 1, state := DiskState.PENDING },
           (match volPub.source with
            | VolSource.persistentDisk n2 none =>
              { volPub with source := VolSource.persistentDisk n2 (some (sz.getD 1)) }
            | _ => volPub),
           { st with
             disks := updateFirstDisk oid nm
               (fun _ => { d with size := sz.getD 1, state := DiskState.PENDING }) st.disks }) := by
      simp [handlePersistentStorage, hsrc, hfind, hdel]
    refine ⟨_, _, _, hcomp, ?_⟩
    exact diskFind_updateFirstDisk st.disks oid nm _ (by rw [hfind]; rfl) h1 h2
  · intro hnd hre
    simp [handlePersistentStorage, hsrc, hfind, hnd, hre]

/-- Concrete instance of the C3 theorem: a DELETED disk vol1 is
resurrected at size 4 PENDING, and an ACTIVE disk vol2 with reuse=false
yields the VolumeExists conflict naming it. -/
theorem c3_persistent_disk_conflict_and_resurrect_witness :
    (∃ v' p' st', handlePersistentStorage enrich0 7
        { name := "v1", source := VolSource.persistentDisk "vol1" (some 4) }
        { name := "v1", source := VolSource.persistentDisk "vol1" none } true
        { disks := [{ id := 5, name := "vol1", ownerId := 7, size := 2, state := DiskState.DELETED },
                    { id := 6, name := "vol2", ownerId := 7, size := 3, state := DiskState.ACTIVE }],
          nextId := 9 } = Except.ok (v', p', st')
      ∧ diskFind st'.disks 7 "vol1" =
          some { id := 5, name := "vol1", ownerId := 7, size := 4, state := DiskState.PENDING })
    ∧ handlePersistentStorage enrich0 7
        { name := "v2", source := VolSource.persistentDisk "vol2" none }
        { name := "v2", source := VolSource.persistentDisk "vol2" none } false
        { disks := [{ id := 5, name := "vol1", ownerId := 7, size := 2, state := DiskState.DELETED },
                    { id := 6, name := "vol2", ownerId := 7, size := 3, state := DiskState.ACTIVE }],
          nextId := 9 } = Except.error { name := "vol2", id := 6 } := by
  constructor
  · exact (c3_persistent_disk_conflict_and_resurrect enrich0 7
      { name := "v1", source := VolSource.persistentDisk "vol1" (some 4) }
      { name := "v1", source := VolSource.persistentDisk "vol1" none } true
      { disks := [{ id := 5, name := "vol1", ownerId := 7, size := 2, state := DiskState.DELETED },
                  { id := 6, name := "vol2", ownerId := 7, size := 3, state := DiskState.ACTIVE }],
        nextId := 9 } "vol1" (some 4)
      { id := 5, name := "vol1", ownerId := 7, size := 2, state := DiskState.DELETED }
      rfl rfl).1 rfl
  · exact (c3_persistent_disk_conflict_and_resurrect enrich0 7
      { name := "v2", source := VolSource.persistentDisk "vol2" none }
      { name := "v2", source := VolSource.persistentDisk "vol2" none } false
      { disks := [{ id := 5, name := "vol1", ownerId := 7, size := 2, state := DiskState.DELETED },
                  { id := 6, name := "vol2", ownerId := 7, size := 3, state := DiskState.ACTIVE }],
        nextId := 9 } "vol2" none
      { id := 6, name := "vol2", ownerId := 7, size := 3, state := DiskState.ACTIVE }
      rfl rfl).2 (by decide) rfl

/-- Reading a non-empty collection: the head answers when its key
matches. -/
theorem collGet_cons (x : CKey × PodRec) (l : Collection) (k : CKey) :
    collGet k (x :: l) = if (x.1 == k) = true then some x.2 else collGet k l := by
  cases h : (x.1 == k) <;> simp [collGet, List.find?_cons, h]

/-- The keys of a dict write: unchanged when the key exists, extended by
the key otherwise. -/
theorem collPut_keys (k : CKey) (v : PodRec) (c : Collection) :
    (collPut k v c).map Prod.fst =
      if c.any (fun kv => kv.1 == k) then c.map Prod.fst else c.map Prod.fst ++ [k] := by
  unfold collPut
  split
  · rw [List.map_map]
    refine List.map_congr_left fun kv _ => ?_
    by_cases h : kv.1 = k <;> simp [h]
  · simp

/-- A dict write keeps the keys pairwise distinct. -/
theorem collPut_keys_nodup (k : CKey) (v : PodRec) (c : Collection)
    (h : (c.map Prod.fst).Nodup) : ((collPut k v c).map Prod.fst).Nodup := by
  rw [collPut_keys]
  split
  · exact h
  · rename_i hany
    have hk : k ∉ c.map Prod.fst := by
      intro hmem
      obtain ⟨kv, hkv, hfst⟩ := List.mem_map.1 hmem
      exact hany (List.any_eq_true.2 ⟨kv, hkv, by simp [hfst]⟩)
    refine List.Nodup.append h (List.nodup_singleton k) fun x hx hmem => ?_
    rw [List.mem_singleton] at hmem
    subst hmem
    exact hk hx

/-- Reading back the key just written when the key already existed. -/
theorem collGet_map_put_self (c : Collection) (k : CKey) (v : PodRec)
    (h : c.any (fun kv => kv.1 == k) = true) :
    collGet k (c.map (fun kv => if kv.1 == k then (k, v) else kv)) = some v := by
  induction c with
  | nil => simp at h
  | cons kv t ih =>
    simp only [List.map_cons]
    rw [collGet_cons]
    by_cases h1 : kv.1 = k
    · simp [h1]
    · have h2 : t.any (fun kv => kv.1 == k) = true := by
        rcases List.any_eq_true.1 h with ⟨x, hx, hxk⟩
        rcases List.mem_cons.1 hx with rfl | hxt
        · exact absurd (by simpa using hxk) h1
        · exact List.any_eq_true.2 ⟨x, hxt, hxk⟩
      simpa [h1] using ih h2

/-- Reading back the key just appended when the key was absent. -/
theorem collGet_append_self (c : Collection) (k : CKey) (v : PodRec)
    (h : c.any (fun kv => kv.1 == k) = false) :
    collGet k (c ++ [(k, v)]) = some v := by
  induction c with
  | nil => simp [collGet]
  | cons kv t ih =>
    simp only [List.any_cons, Bool.or_eq_false_iff] at h
    rw [List.cons_append, collGet_cons]
    simp only [h.1, Bool.false_eq_true, if_false]
    exact ih h.2

/-- Reading back the key just written. -/
theorem collGet_put_self (c : Collection) (k : CKey) (v : PodRec) :
    collGet k (collPut k v c) = some v := by
  unfold collPut
  split
  · exact collGet_map_put_self c k v (by assumption)
  · refine collGet_append_self c k v ?_
    rename_i h
    exact Bool.eq_false_iff.mpr h

/-- A dict overwrite never changes the value stored under another key. -/
theorem collGet_map_put_ne (c : Collection) (k k' : CKey) (v : PodRec) (hne : k' ≠ k) :
    collGet k (c.map (fun kv => if kv.1 == k' then (k', v) else kv)) = collGet k c := by
  induction c with
  | nil => rfl
  | cons kv t ih =>
    simp only [List.map_cons]
    rw [collGet_cons, collGet_cons kv]
    by_cases h1 : kv.1 = k'
    · have hx : ((if (kv.1 == k') = true then (k', v) else kv) : CKey × PodRec) = (k', v) := by
        simp [h1]
      rw [hx]
      have hk'k : ((k' : CKey) == k) = false := by simp [hne]
      have hkvk : (kv.1 == k) = false := by simp [h1, hne]
      simp only [hk'k, hkvk, Bool.false_eq_true, if_false]
      exact ih
    · have hx : ((if (kv.1 == k') = true then (k', v) else kv) : CKey × PodRec) = kv := by
        simp [h1]
      rw [hx]
      by_cases h2 : kv.1 = k
      · simp [h2]
      · simp only [show (kv.1 == k) = false by simp [h2], Bool.false_eq_true, if_false]
        exact ih

/-- An append under a fresh key never changes the value stored under
another key. -/
theorem collGet_append_ne (c : Collection) (k k' : CKey) (v : PodRec) (hne : k' ≠ k) :
    collGet k (c ++ [(k', v)]) = collGet k c := by
  induction c with
  | nil =>
    rw [List.nil_append, collGet_cons]
    simp [show ((k' : CKey) == k) = false by simp [hne], collGet]
  | cons kv t ih =>
    rw [List.cons_append, collGet_cons, collGet_cons]
    by_cases h2 : kv.1 = k
    · simp [h2]
    · simp only [show (kv.1 == k) = false by simp [h2], Bool.false_eq_true, if_false]
      exact ih

/-- A dict write never changes the value stored under another key. -/
theorem collGet_put_ne (c : Collection) (k k' : CKey) (v : PodRec) (hne : k' ≠ k) :
    collGet k (collPut k' v c) = collGet k c := by
  unfold collPut
  split
  · exact collGet_map_put_ne c k k' v hne
  · exact collGet_append_ne c k k' v hne

/-- One merge iteration only touches the entry at its own (name,
namespace) key. -/
theorem mergeStep_frame (coll : Collection) (d : DbPod) (k : CKey)
    (hname : d.config.name = some d.name)
    (hk : k ≠ ((some d.name, some d.ns) : CKey)) :
    collGet k (mergeStep coll d) = collGet k coll := by
  have hpodname : (forgeDockers POD_stopped (podFromConfig d.config)).name = some d.name := by
    simp [forgeDockers, podFromConfig, hname]
  unfold mergeStep ownerStatusDefault
  cases h : collGet ((some d.name, some d.ns) : CKey) coll with
  | none =>
    simp only [h, hpodname, collGet_put_self]
    rw [collGet_put_ne _ _ _ _ (Ne.symm hk), collGet_put_ne _ _ _ _ (Ne.symm hk)]
  | some live =>
    simp only [h, collGet_put_self]
    rw [collGet_put_ne _ _ _ _ (Ne.symm hk), collGet_put_ne _ _ _ _ (Ne.symm hk)]

/-- A merge iteration for a persisted record whose key is absent from the
collection inserts a record whose containers are the persisted document
containers with forged runtime fields. -/
theorem mergeStep_absent (coll : Collection) (d : DbPod)
    (hname : d.config.name = some d.name)
    (h : collGet ((some d.name, some d.ns) : CKey) coll = none) :
    ∃ p, collGet ((some d.name, some d.ns) : CKey) (mergeStep coll d) = some p
      ∧ p.containers = (podFromConfig d.config).containers.map (forgeContainer POD_stopped) := by
  have hpodname : (forgeDockers POD_stopped (podFromConfig d.config)).name = some d.name := by
    simp [forgeDockers, podFromConfig, hname]
  unfold mergeStep ownerStatusDefault
  simp only [h, hpodname, collGet_put_self]
  refine ⟨_, rfl, ?_⟩
  split <;> split <;> rfl

/-- The owner and status defaulting keeps the collection keys pairwise
distinct. -/
theorem ownerStatusDefault_nodup (key : CKey) (d : DbPod) (coll : Collection)
    (h : (coll.map Prod.fst).Nodup) :
    ((ownerStatusDefault key d coll).map Prod.fst).Nodup := by
  unfold ownerStatusDefault
  cases hg : collGet key coll with
  | none => simpa [hg] using h
  | some p =>
    simp only [hg]
    exact collPut_keys_nodup _ _ _ h

/-- One merge iteration keeps the collection keys pairwise distinct. -/
theorem mergeStep_nodup (coll : Collection) (d : DbPod)
    (h : (coll.map Prod.fst).Nodup) : ((mergeStep coll d).map Prod.fst).Nodup := by
  unfold mergeStep
  cases hg : collGet ((some d.name, some d.ns) : CKey) coll with
  | none =>
    simp only [hg]
    exact ownerStatusDefault_nodup _ _ _ (collPut_keys_nodup _ _ _ h)
  | some live =>
    simp only [hg]
    exact ownerStatusDefault_nodup _ _ _ (collPut_keys_nodup _ _ _ h)

/-- The merge loop never touches entries whose key belongs to no processed
record. -/
theorem mergeAll_frame (dbs : List DbPod) (coll : Collection) (k : CKey)
    (h : ∀ d ∈ dbs, d.config.name = some d.name ∧ k ≠ ((some d.name, some d.ns) : CKey)) :
    collGet k (mergeAll coll dbs) = collGet k coll := by
  induction dbs generalizing coll with
  | nil => rfl
  | cons d rest ih =>
    rw [show mergeAll coll (d :: rest) = mergeAll (mergeStep coll d) rest from rfl]
    rw [ih (mergeStep coll d) (fun d' hd' => h d' (by simp [hd']))]
    exact mergeStep_frame coll d k (h d (by simp)).1 (h d (by simp)).2

/-- The merge loop keeps the collection keys pairwise distinct. -/
theorem mergeAll_nodup (dbs : List DbPod) (coll : Collection)
    (h : (coll.map Prod.fst).Nodup) : ((mergeAll coll dbs).map Prod.fst).Nodup := by
  induction dbs generalizing coll with
  | nil => exact h
  | cons d rest ih =>
    rw [show mergeAll coll (d :: rest) = mergeAll (mergeStep coll d) rest from rfl]
    exact ih (mergeStep coll d) (mergeStep_nodup coll d h)

/-- After the whole merge loop, every persisted record whose key was
absent from the fetched collection is present as a forged record. -/
theorem mergeAll_absent (dbs : List DbPod) (coll : Collection)
    (hdb : (dbs.map (fun d => ((some d.name, some d.ns) : CKey))).Nodup)
    (hnames : ∀ d ∈ dbs, d.config.name = some d.name)
    (d : DbPod) (hd : d ∈ dbs)
    (habs : collGet ((some d.name, some d.ns) : CKey) coll = none) :
    ∃ p, collGet ((some d.name, some d.ns) : CKey) (mergeAll coll dbs) = some p
      ∧ p.containers = (podFromConfig d.config).containers.map (forgeContainer POD_stopped) := by
  induction dbs generalizing coll with
  | nil => simp at hd
  | cons d0 rest ih =>
    have hnames0 : d0.config.name = some d0.name := hnames d0 (by simp)
    have hnotmem : ((some d0.name, some d0.ns) : CKey) ∉
        rest.map (fun d => ((some d.name, some d.ns) : CKey)) :=
      (List.nodup_cons.1 hdb).1
    rcases List.mem_cons.1 hd with rfl | hdrest
    · obtain ⟨p, hp, hc⟩ := mergeStep_absent coll d hnames0 habs
      refine ⟨p, ?_, hc⟩
      rw [show mergeAll coll (d :: rest) = mergeAll (mergeStep coll d) rest from rfl]
      rw [mergeAll_frame rest (mergeStep coll d) _ ?_]
      · exact hp
      · intro d' hd'
        refine ⟨hnames d' (by simp [hd']), fun hkeq => ?_⟩
        exact hnotmem (hkeq ▸ List.mem_map_of_mem _ hd')
    · have hkne : ((some d.name, some d.ns) : CKey) ≠ ((some d0.name, some d0.ns) : CKey) := by
        intro hkeq
        exact hnotmem (hkeq ▸ List.mem_map_of_mem _ hdrest)
      have habs' : collGet ((some d.name, some d.ns) : CKey) (mergeStep coll d0) = none := by
        rw [mergeStep_frame coll d0 _ hnames0 hkne]
        exact habs
      exact ih (mergeStep coll d0) (List.nodup_cons.1 hdb).2
        (fun d' hd' => hnames d' (by simp [hd'])) hdrest habs'

/-- C7: the reconciled collection holds exactly one record per (name,
namespace) key after the merge phase (pairwise distinct keys, as the
source dict guarantees for the fetched collection and the merge
preserves), and every persisted record whose key was absent from the live
fetch is present as a record synthesized from its document whose
containers all carry forged runtime fields: state stopped, non-null
container and image ids, ready false, restartCount zero and no start
timestamp.  The persisted keys are assumed pairwise distinct (name is
unique per owner and the namespace is derived from it) and each document
is assumed to carry its record name (otherwise the source itself would
raise KeyError in the defaulting lines). -/
theorem c7_merge_unique_keys_and_forged_records (coll : Collection) (dbs : List DbPod)
    (hnodup : (coll.map Prod.fst).Nodup)
    (hdb : (dbs.map (fun d => ((some d.name, some d.ns) : CKey))).Nodup)
    (hnames : ∀ d ∈ dbs, d.config.name = some d.name) :
    ((mergeAll coll dbs).map Prod.fst).Nodup
    ∧ ∀ d ∈ dbs, collGet ((some d.name, some d.ns) : CKey) coll = none →
        ∃ p, collGet ((some d.name, some d.ns) : CKey) (mergeAll coll dbs) = some p
          ∧ p.containers = (podFromConfig d.config).containers.map (forgeContainer POD_stopped)
          ∧ ∀ c ∈ p.containers,
              c.state = some POD_stopped ∧ c.containerID = some (some c.name)
              ∧ c.imageID = some (some c.image) ∧ c.ready = some false
              ∧ c.restartCount = some 0 ∧ c.startedAt = some none := by
  refine ⟨mergeAll_nodup dbs coll hnodup, fun d hd habs => ?_⟩
  obtain ⟨p, hp, hc⟩ := mergeAll_absent dbs coll hdb hnames d hd habs
  refine ⟨p, hp, hc, fun c hcmem => ?_⟩
  rw [hc] at hcmem
  obtain ⟨c0, _, rfl⟩ := List.mem_map.1 hcmem
  exact ⟨rfl, rfl, rfl, rfl, rfl, rfl⟩

/-- Concrete instance of the C7 theorem: one live record, one persisted
record under a different key. -/
theorem c7_merge_unique_keys_and_forged_records_witness :
    ∃ p, collGet ((some "db", some "bob-db-pods") : CKey)
        (mergeAll [(((some "web", some "ns1") : CKey), populate rawW)]
          [{ id := "pid1", name := "db", ns := "bob-db-pods", ownerUsername := "bob",
             config := { name := some "db",
                         containers := [{ name := "c1", image := "redis" }] } }]) = some p
      ∧ ∀ c ∈ p.containers,
          c.state = some POD_stopped ∧ c.containerID = some (some c.name)
          ∧ c.ready = some false := by
  obtain ⟨p, hp, _, hprops⟩ :=
    (c7_merge_unique_keys_and_forged_records
      [(((some "web", some "ns1") : CKey), populate rawW)]
      [{ id := "pid1", name := "db", ns := "bob-db-pods", ownerUsername := "bob",
         config := { name := some "db",
                     containers := [{ name := "c1", image := "redis" }] } }]
      (by decide) (by decide) (by intro d hd; simp at hd; simp [hd])).2
      { id := "pid1", name := "db", ns := "bob-db-pods", ownerUsername := "bob",
        config := { name := some "db",
                    containers := [{ name := "c1", image := "redis" }] } }
      (by simp) (by decide)
  exact ⟨p, hp, fun c hc => ⟨(hprops c hc).1, (hprops c hc).2.1, (hprops c hc).2.2.2.1⟩⟩

/-- C9: deleting a pod owned by the platform-internal user without force
fails with the forbidden error before anything is removed or persisted
(the error aborts the embedded computation, so no changed world exists),
while with force the deletion proceeds through its steps to the namespace
drop and the deleted mark (stated here on a pod with no sid, no recorded
service and no public ip, whose namespace exists). -/
theorem c9_delete_internal_requires_force (unbind : String → Bool)
    (pod : PodRec) (w : World) (n : String)
    (hown : pod.owner = some KUBERDOCK_INTERNAL_USER) :
    deletePod unbind pod false w = Except.error "Service pod cannot be removed"
    ∧ (pod.sid = none → w.configService = none → pod.public_ip = none →
       pod.ns = some n → w.k8s.namespaces.contains n = true →
       deletePod unbind pod true w =
         Except.ok
           ({ w with k8s := { w.k8s with namespaces := w.k8s.namespaces.erase n },
                     deletedPods := w.deletedPods ++ [pod.id.getD ""] },
            [Ev.nsDelete n, Ev.markDeleted pod.id])) := by
  constructor
  · simp [deletePod, hown]
  · intro h1 h2 h3 h4 h5
    have h5' : n ∈ w.k8s.namespaces := by simpa using h5
    simp [deletePod, hown, h1, h2, h3, h4, h5, h5']

/-- Concrete instance of the C9 theorem. -/
theorem c9_delete_internal_requires_force_witness :
    deletePod unbind0
        { owner := some KUBERDOCK_INTERNAL_USER, ns := some "ns1", id := some "id1" }
        false { k8s := { namespaces := ["ns1"] } } =
      Except.error "Service pod cannot be removed"
    ∧ ∃ w', deletePod unbind0
        { owner := some KUBERDOCK_INTERNAL_USER, ns := some "ns1", id := some "id1" }
        true { k8s := { namespaces := ["ns1"] } } =
      Except.ok (w', [Ev.nsDelete "ns1", Ev.markDeleted (some "id1")]) := by
  have h := c9_delete_internal_requires_force unbind0
    { owner := some KUBERDOCK_INTERNAL_USER, ns := some "ns1", id := some "id1" }
    { k8s := { namespaces := ["ns1"] } } "ns1" rfl
  exact ⟨h.1, ⟨_, h.2 rfl rfl rfl rfl (by decide)⟩⟩

/-- The namespace step never touches the services or the name counter,
and its events are empty exactly when the namespace existed. -/
theorem makeNamespace_parts (ns : String) (k : K8s) :
    (makeNamespace ns k).1.services = k.services
    ∧ (makeNamespace ns k).1.svcCounter = k.svcCounter
    ∧ (makeNamespace ns k).2 =
        (if k.namespaces.contains ns then [] else [Ev.nsCreate ns]) := by
  unfold makeNamespace
  split <;> simp_all

/-- The config prepare builds is named after the pod sid. -/
theorem prepare_name (ktl : Int → KType → Limits) (mkName : String → String)
    (defaultKT : KType) (attachable : KType → Bool) (p : PodRec) (g : Nat) :
    (prepare ktl mkName defaultKT attachable p g).1.name = p.sid := rfl

/-- C4: starting a pod that exposes a port while its persisted config
records no service creates exactly one service before the workload is
posted and persists the generated service name onto the desired config;
when the config already records a service name, no service is created at
all (the service list, and the recorded name, are unchanged and the only
orchestrator writes are the optional namespace creation and the workload
post). -/
theorem c4_start_creates_one_service_then_workload (ktl : Int → KType → Limits)
    (mkName : String → String) (defaultKT : KType) (attachable : KType → Bool)
    (mkDash : String → String) (pod : PodRec) (w : World) :
    (w.configService = none → (∃ c ∈ pod.containers, c.ports ≠ []) →
      (startPod ktl mkName defaultKT attachable mkDash pod w).1.configService =
          some ("service-" ++ toString w.k8s.svcCounter)
      ∧ (startPod ktl mkName defaultKT attachable mkDash pod w).1.k8s.services.length =
          w.k8s.services.length + 1
      ∧ (startPod ktl mkName defaultKT attachable mkDash pod w).2.2.1 =
          (if w.k8s.namespaces.contains (pod.ns.getD "") then []
           else [Ev.nsCreate (pod.ns.getD "")])
          ++ [Ev.svcCreate ("service-" ++ toString w.k8s.svcCounter),
              Ev.cfgUpdateService ("service-" ++ toString w.k8s.svcCounter),
              Ev.rcCreate pod.sid])
    ∧ (∀ s, w.configService = some s → s.isEmpty = false →
      (startPod ktl mkName defaultKT attachable mkDash pod w).1.k8s.services = w.k8s.services
      ∧ (startPod ktl mkName defaultKT attachable mkDash pod w).1.configService = some s
      ∧ (startPod ktl mkName defaultKT attachable mkDash pod w).2.2.1 =
          (if w.k8s.namespaces.contains (pod.ns.getD "") then []
           else [Ev.nsCreate (pod.ns.getD "")])
          ++ [Ev.rcCreate pod.sid]) := by
  obtain ⟨hsvcs, hcnt, hevs⟩ := makeNamespace_parts (pod.ns.getD "") w.k8s
  constructor
  · intro hcfg hex
    have hfind : (pod.containers.find? (fun c => !c.ports.isEmpty)).isSome := by
      refine List.find?_isSome.2 ?_
      obtain ⟨c, hc, hcp⟩ := hex
      exact ⟨c, hc, by simpa using hcp⟩
    obtain ⟨c0, hc0⟩ := Option.isSome_iff_exists.1 hfind
    have hemp : "".isEmpty = true := rfl
    refine ⟨?_, ?_, ?_⟩
    · simp [startPod, hcfg, hc0, runService, hcnt, hemp]
    · simp [startPod, hcfg, hc0, runService, hsvcs, hemp]
    · simp [startPod, hcfg, hc0, runService, hevs, hcnt, prepare_name, hemp]
  · intro s hs hsne
    refine ⟨?_, ?_, ?_⟩
    · simp [startPod, hs, hsne, hsvcs]
    · simp [startPod, hs, hsne]
    · simp [startPod, hs, hsne, hevs, prepare_name]

/-- Concrete instance of the C4 theorem: a first start creating service-0
and a second start (service recorded) leaving the services alone. -/
theorem c4_start_creates_one_service_then_workload_witness :
    (startPod ktl0 mkName0 kt0 att0 mkDash0
        { sid := some "rc1", ns := some "ns1", id := some "uid1",
          containers := [{ name := "c1", image := "i",
                           ports := [{ containerPort := 80 }] }] }
        {}).1.configService = some ("service-" ++ toString (0 : Nat))
    ∧ (startPod ktl0 mkName0 kt0 att0 mkDash0
        { sid := some "rc1", ns := some "ns1", id := some "uid1",
          containers := [{ name := "c1", image := "i",
                           ports := [{ containerPort := 80 }] }] }
        {}).1.k8s.services.length = 1
    ∧ (startPod ktl0 mkName0 kt0 att0 mkDash0
        { sid := some "rc1", ns := some "ns1", id := some "uid1",
          containers := [{ name := "c1", image := "i",
                           ports := [{ containerPort := 80 }] }] }
        { configService := some "service-0" }).1.k8s.services = [] := by
  have h1 := (c4_start_creates_one_service_then_workload ktl0 mkName0 kt0 att0 mkDash0
    { sid := some "rc1", ns := some "ns1", id := some "uid1",
      containers := [{ name := "c1", image := "i",
                       ports := [{ containerPort := 80 }] }] } {}).1 rfl
    ⟨{ name := "c1", image := "i", ports := [{ containerPort := 80 }] }, by decide, by decide⟩
  have h2 := (c4_start_creates_one_service_then_workload ktl0 mkName0 kt0 att0 mkDash0
    { sid := some "rc1", ns := some "ns1", id := some "uid1",
      containers := [{ name := "c1", image := "i",
                       ports := [{ containerPort := 80 }] }] }
    { configService := some "service-0" }).2 "service-0" rfl (by decide)
  exact ⟨h1.1, h1.2.1, h2.1⟩

/-- C2 counterexample: on a plain pod that does not request a real
service account (the source default), applying prepare a second time to
the state left by the first application does not yield a structurally
equal spec even after canonicalising every generated sidecar volume
identifier: add_serviceaccount_stub appends a second stub volume
unconditionally, so the second spec keeps the stale stub of the first
application next to the fresh one (three volumes against two). -/
theorem c2_prepare_not_idempotent_counterexample :
    ¬ (scrubConfig (prepare ktl0 mkName0 kt0 att0
          (prepare ktl0 mkName0 kt0 att0 p2 0).2.1
          (prepare ktl0 mkName0 kt0 att0 p2 0).2.2).1
       = scrubConfig (prepare ktl0 mkName0 kt0 att0 p2 0).1) := by decide

/-- A string extending a prefix starts with it. -/
theorem startsWith_of_append (pre t : String) : startsWithStr (pre ++ t) pre = true := by
  simp [startsWithStr, String.data_append, List.isPrefixOf_iff_prefix]

/-- A string that does not start with a prefix differs from every
extension of it. -/
theorem ne_of_not_startsWith {s pre t : String}
    (h : startsWithStr s pre = false) : s ≠ pre ++ t := by
  intro hc
  rw [hc, startsWith_of_append] at h
  cases h

/-- removeFirst drops exactly the appended match when nothing before it
matches. -/
theorem removeFirst_append_single {α : Type} (q : α → Bool) (l : List α) (x : α)
    (hl : ∀ y ∈ l, q y = false) (hx : q x = true) :
    removeFirst q (l ++ [x]) = l := by
  induction l with
  | nil => simp [removeFirst, hx]
  | cons a t ih =>
    have ha : q a = false := hl a (by simp)
    have ih' := ih (fun y hy => hl y (by simp [hy]))
    simp only [List.cons_append, removeFirst, ha, Bool.false_eq_true, if_false,
      List.append_eq, ih']

/-- extract_volume_annotations is the identity with no collected values on
volumes carrying no annotation marker. -/
theorem extractAnns_of_none (vols : List Volume) (h : ∀ v ∈ vols, v.ann = none) :
    extractAnns vols = ([], vols) := by
  unfold extractAnns
  rw [List.filterMap_eq_nil_iff.2 h, mapSelf (fun v hv => ?_)]
  obtain ⟨nm, an, src⟩ := v
  have := h _ hv
  simp_all

/-- _get_volumes_to_prefill collects nothing and changes nothing on
containers whose mounts carry no copy-from-image marker. -/
theorem prefillExtract_of_none (cs : List Container)
    (h : ∀ c ∈ cs, ∀ m ∈ c.volumeMounts, m.kdCopyFromImage = none) :
    prefillExtract cs = ([], cs) := by
  unfold prefillExtract
  have h1 : ∀ c ∈ cs,
      (c.volumeMounts.filter (fun m => m.kdCopyFromImage == some true)).map
        (fun m => m.name) = [] := by
    intro c hc
    rw [List.filter_eq_nil_iff.2 (fun m hm => by simp [h c hc m hm])]
    rfl
  have h2 : ∀ c ∈ cs,
      ({ c with
         volumeMounts := c.volumeMounts.map (fun m => { m with kdCopyFromImage := none })
       } : Container) = c := by
    intro c hc
    rw [mapSelf (fun m hm => ?_)]
    obtain ⟨mn, mp, ro, kd⟩ := m
    have := h c hc ⟨mn, mp, ro, kd⟩ hm
    simp_all
  rw [mapSelf h2, show cs.map (fun c =>
      (c.volumeMounts.filter (fun m => m.kdCopyFromImage == some true)).map
        (fun m => m.name)) = cs.map (fun _ => []) from List.map_congr_left h1]
  simp

/-- The per-container transform never touches the mount list. -/
theorem prepareContainer_volumeMounts (ktl : Int → KType → Limits)
    (mkName : String → String) (owner : Option String) (kt : KType) (data : Container) :
    (prepareContainer ktl mkName owner kt data).volumeMounts = data.volumeMounts := by
  simp only [prepareContainer]
  split <;> split <;> split <;> split <;> rfl

/-- Extending the declared volume set by a kdtools volume does not change
the mount filter of a container whose mounts are kdtools-free. -/
theorem filter_contains_append_kd (ms : List VMount) (names : List String) (kn : String)
    (hkn : startsWithStr kn "kdtools-" = true)
    (h : ∀ m ∈ ms, startsWithStr m.name "kdtools-" = false) :
    ms.filter (fun m => (names ++ [kn]).contains m.name) =
      ms.filter (fun m => names.contains m.name) := by
  refine List.filter_congr fun m hm => ?_
  have hne : m.name ≠ kn := by
    intro hc
    have h' := h m hm
    rw [hc, hkn] at h'
    cases h'
  simp [List.contains, List.elem_eq_mem, List.mem_append, hne]

/-- add_kdtools on a kdtools-free volume list, possibly already carrying
one previously injected kdtools volume at its end, replaces that volume by
the freshly named one and appends the fresh mount to every container whose
mounts are kdtools-free. -/
theorem addKdtools_clean (g : Nat) (cs : List Container) (vs ks : List Volume)
    (hvs : ∀ v ∈ vs, startsWithStr v.name "kdtools-" = false)
    (hks : ks = [] ∨ ∃ g0, ks = [kdVol g0])
    (hcs : ∀ c ∈ cs, ∀ m ∈ c.volumeMounts, startsWithStr m.name "kdtools-" = false) :
    addKdtools g cs (vs ++ ks) =
      (cs.map (fun c => { c with volumeMounts := c.volumeMounts ++ [kdMount g] }),
       vs ++ [kdVol g], g + 1) := by
  unfold addKdtools
  have hvols : (if (vs ++ ks).any (fun v => startsWithStr v.name "kdtools-") then
      removeFirst (fun v => startsWithStr v.name "kdtools-") (vs ++ ks)
      else (vs ++ ks)) = vs := by
    rcases hks with rfl | ⟨g0, rfl⟩
    · rw [List.append_nil]
      rw [if_neg ?_]
      simp only [Bool.not_eq_true, List.any_eq_false]
      intro v hv
      simp [hvs v hv]
    · have hlast : startsWithStr (kdVol g0).name "kdtools-" = true := by
        simp [kdVol, startsWith_of_append]
      rw [if_pos ?_]
      · exact removeFirst_append_single _ vs (kdVol g0) hvs hlast
      · simp [List.any_append, hlast]
  rw [hvols]
  dsimp only
  congr 1
  refine List.map_congr_left fun c hc => ?_
  have hnone : c.volumeMounts.any (fun m => startsWithStr m.name "kdtools-") = false := by
    simp only [List.any_eq_false]
    intro m hm
    simp [hcs c hc m hm]
  simp [hnone, kdMount]

/-- Closed form of Pod.prepare on a pod that requests a real service
account, whose volumes are vs plus at most one previously injected
kdtools volume, with no annotation markers, no copy-from-image markers
and no kdtools-prefixed user names anywhere: the built config is
cfgClean, the pod state keeps its containers and carries vs plus the
fresh kdtools volume, and exactly one generated name is consumed. -/
theorem prepare_clean (ktl : Int → KType → Limits) (mkName : String → String)
    (defaultKT : KType) (attachable : KType → Bool) (p : PodRec) (g : Nat)
    (vs ks : List Volume)
    (hv : p.volumes = vs ++ ks)
    (hvs : ∀ v ∈ vs, v.ann = none ∧ startsWithStr v.name "kdtools-" = false)
    (hks : ks = [] ∨ ∃ g0, ks = [kdVol g0])
    (hsa : p.serviceAccount = true)
    (hm : ∀ c ∈ p.containers, ∀ m ∈ c.volumeMounts,
        m.kdCopyFromImage = none ∧ startsWithStr m.name "kdtools-" = false) :
    prepare ktl mkName defaultKT attachable p g =
      (cfgClean ktl mkName defaultKT attachable p vs g,
       { p with volumes := vs ++ [kdVol g] },
       g + 1) := by
  have hallann : ∀ v ∈ p.volumes, v.ann = none := by
    rw [hv]
    intro v hvv
    rcases List.mem_append.1 hvv with h | h
    · exact (hvs v h).1
    · rcases hks with rfl | ⟨g0, rfl⟩
      · simp at h
      · rw [List.mem_singleton.1 h]
        rfl
  have hEA : extractAnns p.volumes = ([], p.volumes) := extractAnns_of_none _ hallann
  have hPF : prefillExtract p.containers = ([], p.containers) :=
    prefillExtract_of_none _ (fun c hc m hm' => (hm c hc m hm').1)
  have hC1 : List.map (fun c => prepareContainer ktl mkName p.owner (p.kube_type.getD defaultKT)
        { c with volumeMounts := c.volumeMounts.filter (fun m =>
            (List.map (fun v => v.name) (vs ++ ks)).contains m.name) }) p.containers
      = List.map (fun c => prepareContainer ktl mkName p.owner (p.kube_type.getD defaultKT)
        { c with volumeMounts := c.volumeMounts.filter (fun m =>
            (List.map (fun v => v.name) vs).contains m.name) }) p.containers := by
    refine List.map_congr_left fun c hc => ?_
    rcases hks with rfl | ⟨g0, rfl⟩
    · rw [List.append_nil]
    · rw [List.map_append, show List.map (fun v => v.name) [kdVol g0] =
        ["kdtools-" ++ uuidHex g0] from rfl]
      exact congrArg (fun X => prepareContainer ktl mkName p.owner
          (p.kube_type.getD defaultKT) { c with volumeMounts := X })
        (filter_contains_append_kd c.volumeMounts _ _
          (startsWith_of_append _ _) (fun m hm' => (hm c hc m hm').2))
  have hB : ∀ c' ∈ List.map (fun c => prepareContainer ktl mkName p.owner
        (p.kube_type.getD defaultKT)
        { c with volumeMounts := c.volumeMounts.filter (fun m =>
            (List.map (fun v => v.name) vs).contains m.name) }) p.containers,
      ∀ m ∈ c'.volumeMounts, startsWithStr m.name "kdtools-" = false := by
    intro c' hc' m hm'
    obtain ⟨c, hc, rfl⟩ := List.mem_map.1 hc'
    rw [prepareContainer_volumeMounts] at hm'
    exact (hm c hc m (List.mem_filter.1 hm').1).2
  unfold prepare cfgClean
  rw [hEA]
  dsimp only
  rw [hv, hC1, addKdtools_clean g _ vs ks (fun v hv' => (hvs v hv').2) hks hB]
  simp only [hsa, Bool.not_true, Bool.false_eq_true, if_false]
  rw [hPF]
  dsimp only
  congr 1
  unfold addKdenvs
  rw [List.map_map, List.map_map]
  rfl

/-- Canonicalising the generated identifiers makes cfgClean independent of
the position of the name supply. -/
theorem scrubConfig_cfgClean (ktl : Int → KType → Limits) (mkName : String → String)
    (defaultKT : KType) (attachable : KType → Bool) (p : PodRec) (vs : List Volume)
    (g g' : Nat) :
    scrubConfig (cfgClean ktl mkName defaultKT attachable p vs g') =
      scrubConfig (cfgClean ktl mkName defaultKT attachable p vs g) := by
  have hvol : ∀ x : Nat, scrubVolume (kdVol x) =
      { name := "kdtools-*", source := VolSource.hostPath HOST_KDTOOLS_PATH } := by
    intro x
    simp [scrubVolume, kdVol, scrubName, startsWith_of_append]
  have hmnt : ∀ x : Nat, scrubMount (kdMount x) =
      { name := "kdtools-*", mountPath := MOUNT_KDTOOLS_PATH, readOnly := some true } := by
    intro x
    simp [scrubMount, kdMount, scrubName, startsWith_of_append]
  unfold scrubConfig cfgClean
  dsimp only
  congr 1
  · rw [List.map_append, List.map_append]
    congr 1
    rw [show List.map scrubVolume [kdVol g'] = [scrubVolume (kdVol g')] from rfl,
        show List.map scrubVolume [kdVol g] = [scrubVolume (kdVol g)] from rfl,
        hvol g', hvol g]
  · rw [List.map_map, List.map_map]
    refine List.map_congr_left fun c hc => ?_
    dsimp only [Function.comp, scrubContainer]
    congr 1
    rw [List.map_append, List.map_append]
    congr 1
    rw [show List.map scrubMount [kdMount g'] = [scrubMount (kdMount g')] from rfl,
        show List.map scrubMount [kdMount g] = [scrubMount (kdMount g)] from rfl,
        hmnt g', hmnt g]

/-- C2 amended: for a pod that requests a real service account, whose
volumes carry no annotation markers and no kdtools-prefixed names and
whose mounts carry no copy-from-image markers and no kdtools-prefixed
names, applying prepare a second time to the state left by the first
application yields a structurally equal spec up to the freshly generated
kdtools volume identifier (the canonicalisation scrubConfig).  Without the
service-account condition the claim fails (see the counterexample): the
stub volume of the first application is kept next to the freshly appended
one, and consumed one-shot markers change the annotation fields. -/
theorem c2_prepare_idempotent_amended (ktl : Int → KType → Limits)
    (mkName : String → String) (defaultKT : KType) (attachable : KType → Bool)
    (p : PodRec) (g : Nat)
    (hsa : p.serviceAccount = true)
    (hvols : ∀ v ∈ p.volumes, v.ann = none ∧ startsWithStr v.name "kdtools-" = false)
    (hm : ∀ c ∈ p.containers, ∀ m ∈ c.volumeMounts,
        m.kdCopyFromImage = none ∧ startsWithStr m.name "kdtools-" = false) :
    scrubConfig (prepare ktl mkName defaultKT attachable
        (prepare ktl mkName defaultKT attachable p g).2.1
        (prepare ktl mkName defaultKT attachable p g).2.2).1
      = scrubConfig (prepare ktl mkName defaultKT attachable p g).1 := by
  have h1 := prepare_clean ktl mkName defaultKT attachable p g p.volumes []
    (by simp) hvols (Or.inl rfl) hsa hm
  rw [h1]
  dsimp only
  have h2 := prepare_clean ktl mkName defaultKT attachable
    { p with volumes := p.volumes ++ [kdVol g] } (g + 1) p.volumes [kdVol g]
    rfl hvols (Or.inr ⟨g, rfl⟩) hsa hm
  rw [h2]
  dsimp only
  have hsame : cfgClean ktl mkName defaultKT attachable
      { p with volumes := p.volumes ++ [kdVol g] } p.volumes (g + 1)
      = cfgClean ktl mkName defaultKT attachable p p.volumes (g + 1) := rfl
  rw [hsame]
  exact scrubConfig_cfgClean ktl mkName defaultKT attachable p p.volumes g (g + 1)

/-- Concrete instance of the amended C2 theorem on a pod requesting a real
service account. -/
theorem c2_prepare_idempotent_amended_witness :
    scrubConfig (prepare ktl0 mkName0 kt0 att0
        (prepare ktl0 mkName0 kt0 att0
          { sid := some "rc1", ns := some "ns1", id := some "uid1", owner := some "alice",
            ownerId := some 7, serviceAccount := true,
            containers := [{ name := "c1", image := "nginx" }] } 0).2.1
        (prepare ktl0 mkName0 kt0 att0
          { sid := some "rc1", ns := some "ns1", id := some "uid1", owner := some "alice",
            ownerId := some 7, serviceAccount := true,
            containers := [{ name := "c1", image := "nginx" }] } 0).2.2).1
      = scrubConfig (prepare ktl0 mkName0 kt0 att0
          { sid := some "rc1", ns := some "ns1", id := some "uid1", owner := some "alice",
            ownerId := some 7, serviceAccount := true,
            containers := [{ name := "c1", image := "nginx" }] } 0).1 :=
  c2_prepare_idempotent_amended ktl0 mkName0 kt0 att0
    { sid := some "rc1", ns := some "ns1", id := some "uid1", owner := some "alice",
      ownerId := some 7, serviceAccount := true,
      containers := [{ name := "c1", image := "nginx" }] } 0
    rfl (by decide) (by decide)

end Kd
